import Mathlib

/-!
Verification of the core grading pipeline of the `edison` autograder.

The development shallowly embeds the Python sources:
  backend/app/services/llm_service.py      (oracle adapter, reconciler, mock parser)
  backend/app/services/latex_parser.py     (document segmenter)
  backend/app/services/grading_service.py  (grading pipeline / state machine)

Conventions of the embedding:
  * Python strings are Lean `String`, scanned as `List Char`.
  * Python dicts that are built by insertion are association lists with
    insert-or-overwrite semantics preserving insertion order (`dictInsert`),
    exactly like CPython dicts.
  * The external LaTeX-to-text converter (pylatexenc) is an abstract
    parameter `conv : String → Option String`; `none` models the library
    raising (the code catches that per span and falls back to raw markup).
  * The external scoring oracle is an abstract reply source; a reply is
    either a raised transport/auth/rate-limit exception or a string whose
    JSON decoding outcome is modelled explicitly (invalid JSON, a JSON
    object, or valid JSON that is not an object).
  * Regular-expression scans are embedded as deterministic character-list
    matchers per pattern, with Python `re` semantics (leftmost match,
    greedy with the backtracking each concrete pattern actually needs,
    non-overlapping `finditer`, `IGNORECASE` where the code passes it).
  * Exceptions are `Except`/`Option`; machine integers are `Int`/`Nat`
    (Python ints are unbounded, so no wrap-around is modelled).
-/

/-! ## Basic utilities shared by the embeddings -/

/-- Python `\s` / `str.strip()` whitespace (the ASCII subset, which is all
the sources ever produce). -/
def pySpace (c : Char) : Bool :=
  c = ' ' || c = '\t' || c = '\n' || c = '\r' || c = '\x0b' || c = '\x0c'

/-- ASCII letter; `[a-z]` under `re.IGNORECASE`. -/
def asciiAlpha (c : Char) : Bool :=
  ('a' ≤ c && c ≤ 'z') || ('A' ≤ c && c ≤ 'Z')

/-- Python `str.strip()`. -/
def pythonStrip (s : String) : String :=
  String.mk (((s.data.dropWhile pySpace).reverse.dropWhile pySpace).reverse)

/-- Numeric value of a run of ASCII digits, as Python `int()` reads it. -/
def digitsToNat (l : List Char) : Nat :=
  l.foldl (fun a c => a * 10 + (c.toNat - ('0').toNat)) 0

/-- CPython-dict insertion: overwrite in place if the key exists (keeping
its original position), else append. -/
def dictInsert {α : Type} (m : List (String × α)) (k : String) (v : α) :
    List (String × α) :=
  match m with
  | [] => [(k, v)]
  | (k', v') :: rest =>
    if k' = k then (k', v) :: rest else (k', v') :: dictInsert rest k v

/-- Association-list lookup (Python `dict.get`). -/
def lookupAssoc {α : Type} (m : List (String × α)) (k : String) : Option α :=
  (m.find? (fun p => p.1 = k)).map (fun p => p.2)

/-! ## IdentifierReconciler: `_find_matching_key` (llm_service.py 552-586) -/

/-- Longest-to-shortest proper-prefix search on the `.` delimiter:
Python `for i in range(len(parts)-1, 0, -1)` with
`parent_key = '.'.join(parts[:i])`.  `tryPrefixes parts keys i` tries the
joins of the first `i`, `i-1`, ..., `1` parts. -/
def tryPrefixes (parts : List String) (keys : List String) : Nat → Option String
  | 0 => none
  | i + 1 =>
    let parent := String.intercalate (".") (parts.take (i + 1))
    if keys.contains parent then some parent else tryPrefixes parts keys i

/-- Python `re.match(r'q(\d+)', question_id)`: a literal lowercase `q`
followed by at least one digit, anchored at the start; the code then forms
`"q" + match.group(1)`, which is exactly the matched prefix. -/
def matchLeadingQNum (s : String) : Option String :=
  match s.data with
  | 'q' :: rest =>
    let ds := rest.takeWhile Char.isDigit
    if ds.isEmpty then none else some (String.mk ('q' :: ds))
  | _ => none

/-- Python `question_id.split('.')` (structurally recursive so that it
evaluates by kernel reduction; `String.splitOn` agrees but is compiled by
well-founded recursion). -/
def pySplitDotAux : List Char → List Char → List String
  | [], acc => [String.mk acc.reverse]
  | c :: rest, acc =>
    if c == '.' then String.mk acc.reverse :: pySplitDotAux rest []
    else pySplitDotAux rest (c :: acc)

def pySplitDot (s : String) : List String := pySplitDotAux s.data []

/-- Embedding of `_find_matching_key(question_id, available_keys)`. -/
def findMatchingKey (question_id : String) (available_keys : List String) :
    Option String :=
  if available_keys.contains question_id then some question_id
  else
    let parts := pySplitDot question_id
    match tryPrefixes parts available_keys (parts.length - 1) with
    | some k => some k
    | none =>
      match matchLeadingQNum question_id with
      | some sk =>
        if available_keys.contains sk then some sk
        else match available_keys with
          | [k] => some k
          | _ => none
      | none =>
        match available_keys with
        | [k] => some k
        | _ => none

/-! Spec-side reconciliation chain (claim C2): the five strategies written
independently from the spec's words, chained first-hit-wins.  These exist
to be compared with `findMatchingKey`. -/

/-- Spec strategy 1: exact match. -/
def tryExactMatch (id : String) (candidates : List String) : Option String :=
  if candidates.contains id then some id else none

/-- Spec strategy 2: progressively truncate at the `.` delimiters, longest
prefix first, returning the first prefix present among the candidates. -/
def tryTruncation (id : String) (candidates : List String) : Option String :=
  let parts := pySplitDot id
  (((List.range (parts.length - 1)).reverse).map
    (fun i => String.intercalate (".") (parts.take (i + 1)))).find?
    (fun p => candidates.contains p)

/-- Spec strategy 3: leading-integer extraction, producing the
`q<digits>` form of the claim's example (so that `"q3.1b"` yields `"q3"`),
tested against the candidates. -/
def tryLeadingInteger (id : String) (candidates : List String) : Option String :=
  match matchLeadingQNum id with
  | some form => if candidates.contains form then some form else none
  | none => none

/-- Spec strategy 4: a singleton candidate set is returned unconditionally. -/
def trySingleton (candidates : List String) : Option String :=
  match candidates with
  | [k] => some k
  | _ => none

/-- The reconciliation chain exactly as the claim orders it. -/
def reconcileSpec (id : String) (candidates : List String) : Option String :=
  (tryExactMatch id candidates).orElse fun _ =>
    (tryTruncation id candidates).orElse fun _ =>
      (tryLeadingInteger id candidates).orElse fun _ =>
        trySingleton candidates

/-! ## GradingOracleAdapter: `LLMService.grade_question` / `_parse_response`
(llm_service.py 40-111, 210-233) -/

/-- The pydantic model `GradingResult` (llm_service.py 8-12).  `reasoning`
and `satisfies_rubric` are `Optional` with defaults `""` and `False`;
`none` models an explicit JSON `null`. -/
structure GradingResult where
  score : Int
  feedback : String
  reasoning : Option String := some ("")
  satisfies_rubric : Option Bool := some false
deriving DecidableEq, Repr

/-- A JSON value as far as the `GradingResult` schema can see it.
`jother` stands for any value of a type no field accepts (arrays, nested
objects, non-integral floats, ...).  pydantic's lax scalar coercions
(e.g. the string "true" for a bool field) are not modelled; no claim
depends on them. -/
inductive JsonVal where
  | jnum (n : Int)
  | jstr (s : String)
  | jbool (b : Bool)
  | jnull
  | jother
deriving DecidableEq, Repr

/-- Looking up a field of a decoded JSON object. -/
def lookupField (obj : List (String × JsonVal)) (k : String) : Option JsonVal :=
  lookupAssoc obj k

/-- pydantic validation of the `Optional[str]` fields. -/
def validOptStr : Option JsonVal → Option (Option String)
  | none => some (some (""))
  | some (JsonVal.jstr s) => some (some s)
  | some JsonVal.jnull => some none
  | some _ => none

/-- pydantic validation of the `Optional[bool]` field. -/
def validOptBool : Option JsonVal → Option (Option Bool)
  | none => some (some false)
  | some (JsonVal.jbool b) => some (some b)
  | some JsonVal.jnull => some none
  | some _ => none

/-- `GradingResult(**data)`: `score` must be an integer and `feedback` a
string (required, so absence or a wrong type raises `ValidationError`);
the other two fields are optional with defaults; unknown keys are
ignored (pydantic default `extra='ignore'`). -/
def validateGradingResult (obj : List (String × JsonVal)) :
    Except String GradingResult :=
  match lookupField obj ("score") with
  | some (JsonVal.jnum n) =>
    match lookupField obj ("feedback") with
    | some (JsonVal.jstr fb) =>
      match validOptStr (lookupField obj ("reasoning")) with
      | some r =>
        match validOptBool (lookupField obj ("satisfies_rubric")) with
        | some sr =>
          Except.ok { score := n, feedback := fb, reasoning := r,
                      satisfies_rubric := sr }
        | none => Except.error ("satisfies_rubric: input should be a valid boolean")
      | none => Except.error ("reasoning: input should be a valid string")
    | _ => Except.error ("feedback: field required or not a valid string")
  | _ => Except.error ("score: field required or not a valid integer")

/-- Outcome of `json.loads` on the (fence-stripped) oracle reply:
invalid JSON, a JSON object, or valid JSON that is not an object (for
which `GradingResult(**data)` raises `TypeError`, not `ValidationError`). -/
inductive OracleJson where
  | invalid
  | obj (fields : List (String × JsonVal))
  | nonObj
deriving DecidableEq, Repr

/-- How `_parse_response` can fail; only the first two kinds are caught by
the retry clause `except (json.JSONDecodeError, ValidationError)`. -/
inductive ParseErr where
  | jsonDecode (msg : String)
  | validation (msg : String)
  | typeError (msg : String)
deriving DecidableEq, Repr

/-- The clamp at llm_service.py 231:
`result.score = max(0, min(result.score, max_points))`. -/
def clampScore (s max_points : Int) : Int := max 0 (min s max_points)

/-- Embedding of `_parse_response(response, max_points)` from the decoded
JSON on (the code-fence stripping acts before decoding and is absorbed
into the `OracleJson` abstraction). -/
def parseResponse (decoded : OracleJson) (max_points : Int) :
    Except ParseErr GradingResult :=
  match decoded with
  | OracleJson.invalid => Except.error (ParseErr.jsonDecode ("Invalid JSON in LLM response"))
  | OracleJson.nonObj => Except.error (ParseErr.typeError ("argument after ** must be a mapping"))
  | OracleJson.obj fields =>
    match validateGradingResult fields with
    | Except.error m => Except.error (ParseErr.validation m)
    | Except.ok r => Except.ok { r with score := clampScore r.score max_points }

/-- One oracle call as `grade_question` sees it: either `_call_openai`
raised (transport / auth / rate-limit / timeout), or it returned a string
whose decoding outcome is `decoded`. -/
inductive OracleReply where
  | failure (msg : String)
  | reply (decoded : OracleJson)

/-- The fixed short-circuit result for the placeholder API key
(llm_service.py 74-80). -/
def noKeyResult : GradingResult :=
  { score := 0,
    feedback := "OpenAI API key not configured. Please set OPENAI_API_KEY in environment variables.",
    reasoning := some ("Cannot grade without valid API key"),
    satisfies_rubric := some false }

/-- Degraded result after the last retry failed on a parse error
(llm_service.py 97-102); `msg` is `str(e)`. -/
def parseFailResult (msg : String) : GradingResult :=
  { score := 0,
    feedback := "Error in AI grading: " ++ msg ++ ". Please review manually.",
    reasoning := some ("AI grading failed due to response parsing error."),
    satisfies_rubric := some false }

/-- Degraded result for any other exception (llm_service.py 105-111). -/
def unexpectedErrResult (msg : String) : GradingResult :=
  { score := 0,
    feedback := "Error in AI grading: " ++ msg ++ ". Please review manually.",
    reasoning := some ("Unexpected error: " ++ msg),
    satisfies_rubric := some false }

/-- The retry loop `for attempt in range(self.max_retries)` of
`grade_question` (llm_service.py 88-111).  `oracle k` is the outcome of
the call made on attempt `k`; the result is paired with the number of
oracle calls performed.  `remaining` counts the loop iterations still
available (`max_retries - attempt`); the `0` base case is unreachable
from `gradeQuestion`, which starts with `remaining = 3 > 0`. -/
def gradeLoop (oracle : Nat → OracleReply) (max_points : Int) :
    Nat → Nat → GradingResult × Nat
  | _, 0 => (parseFailResult (""), 0)
  | attempt, remaining + 1 =>
    match oracle attempt with
    | OracleReply.failure msg => (unexpectedErrResult msg, 1)
    | OracleReply.reply decoded =>
      match parseResponse decoded max_points with
      | Except.ok r => (r, 1)
      | Except.error (ParseErr.typeError msg) => (unexpectedErrResult msg, 1)
      | Except.error (ParseErr.jsonDecode msg) =>
        match remaining with
        | 0 => (parseFailResult msg, 1)
        | r + 1 =>
          let rest := gradeLoop oracle max_points (attempt + 1) (r + 1)
          (rest.1, rest.2 + 1)
      | Except.error (ParseErr.validation msg) =>
        match remaining with
        | 0 => (parseFailResult msg, 1)
        | r + 1 =>
          let rest := gradeLoop oracle max_points (attempt + 1) (r + 1)
          (rest.1, rest.2 + 1)

/-- The placeholder value checked at llm_service.py 74. -/
def placeholderKey : String := "your_openai_api_key_here"

/-- Embedding of `LLMService.grade_question` (llm_service.py 51-111):
returns the `GradingResult` together with the number of oracle calls
made.  The prompt building only feeds the oracle, which is abstract
here, so its text is not tracked. -/
def gradeQuestion (apiKey : String) (oracle : Nat → OracleReply)
    (max_points : Int) : GradingResult × Nat :=
  if apiKey = placeholderKey then (noKeyResult, 0)
  else gradeLoop oracle max_points 0 3

/-- Embedding of `LLMService.__init__` (llm_service.py 43-49): an unset
(empty) `OPENAI_API_KEY` raises `ValueError` before any grading can run. -/
def llmServiceInit (apiKey : String) : Except String Unit :=
  if apiKey = "" then
    Except.error ("OPENAI_API_KEY must be set in environment variables")
  else Except.ok ()

/-- A reply whose handling falls under the retry clause: invalid JSON or
a `ValidationError` from the schema (missing / mistyped fields). -/
def isSchemaFailure (r : OracleReply) : Bool :=
  match r with
  | OracleReply.reply OracleJson.invalid => true
  | OracleReply.reply (OracleJson.obj fields) =>
    match validateGradingResult fields with
    | Except.error _ => true
    | Except.ok _ => false
  | _ => false

/-! ## DocumentSegmenter: `LatexParser` (latex_parser.py)

The regex scans are embedded one matcher per pattern.  A matcher receives
whether the current position is at a line start (for `re.MULTILINE` `^`)
and the remaining characters, and returns the first capture group and the
match length.  `finditer` replicates `re.finditer`: leftmost,
non-overlapping, resuming right after each match. -/

/-- A single regex match: first capture group, start and end offsets. -/
structure ReMatch where
  group1 : String
  start : Nat
  stop : Nat
deriving DecidableEq, Repr

/-- A compiled pattern in this embedding. -/
def Matcher : Type := Bool → List Char → Option (String × Nat)

/-- Whether the last character of a (nonempty) consumed chunk is a
newline, so that `^` can fire right after it. -/
def lastIsNewline (l : List Char) : Bool :=
  match l.getLast? with
  | some c => c == '\n'
  | none => false

/-- Worker for `finditer`.  The fuel starts at the list length; every
step consumes at least one character (all embedded patterns have positive
match length; the `len = 0` guard is unreachable and present only to make
the recursion structurally obvious), so the scan is never truncated. -/
def finditerGo (m : Matcher) : Nat → Bool → List Char → Nat → List ReMatch
  | 0, _, _, _ => []
  | _ + 1, _, [], _ => []
  | fuel + 1, atStart, c :: rest, pos =>
    match m atStart (c :: rest) with
    | some (g, len) =>
      if len = 0 then
        { group1 := g, start := pos, stop := pos } ::
          finditerGo m fuel (c == '\n') rest (pos + 1)
      else
        { group1 := g, start := pos, stop := pos + len } ::
          finditerGo m fuel (lastIsNewline ((c :: rest).take len))
            ((c :: rest).drop len) (pos + len)
    | none => finditerGo m fuel (c == '\n') rest (pos + 1)

/-- `list(re.finditer(pattern, s))`. -/
def finditer (m : Matcher) (s : String) : List ReMatch :=
  finditerGo m s.data.length true s.data 0

/-- The span of text from the end of each match to the start of the next
(or the end of the document), stripped — the common span-slicing loop of
`_extract_questions`, `_extract_subsections`,
`_fallback_question_extraction` and `_create_mock_parse_result`. -/
def spanStrings (content : List Char) : List ReMatch → List (String × String)
  | [] => []
  | m :: rest =>
    let stop := match rest with
      | m2 :: _ => m2.start
      | [] => content.length
    (m.group1, pythonStrip (String.mk ((content.drop m.stop).take (stop - m.stop)))) ::
      spanStrings content rest

/-- Case-insensitive literal match (`re.IGNORECASE`); returns the
remaining characters.  The pattern side is given in lowercase. -/
def matchLitCI : List Char → List Char → Option (List Char)
  | [], l => some l
  | _ :: _, [] => none
  | c :: cs, x :: xs => if c == x.toLower then matchLitCI cs xs else none

/-- Python `\s+`: at least one whitespace character, then as many as
possible. -/
def sPlus (l : List Char) : Option (List Char) :=
  match l with
  | c :: _ => if pySpace c then some (l.dropWhile pySpace) else none
  | [] => none

def sectionOpenLit : String := "\\section\x7b"
def qLit : String := "q"
def questionLit : String := "question"
def problemLit : String := "problem"

/-- Tail of the latex_parser section pattern after the keyword:
`\s*(\d+(?:\.\d+)?)[^}]*\}`.  The optional `.\d+` is taken greedily; if
the closing brace is then unreachable it would be equally unreachable
without it (the characters it frees are digits and a dot, never `}`), so
no further backtracking is needed. -/
def sectionNumTail (l : List Char) : Option (String × List Char) :=
  let l1 := l.dropWhile pySpace
  let ds := l1.takeWhile Char.isDigit
  if ds.isEmpty then none
  else
    let l2 := l1.dropWhile Char.isDigit
    let withDot : Option (List Char × List Char) :=
      match l2 with
      | '.' :: l3 =>
        let ds2 := l3.takeWhile Char.isDigit
        if ds2.isEmpty then none
        else some (ds ++ '.' :: ds2, l3.dropWhile Char.isDigit)
      | _ => none
    let grpRest : List Char × List Char :=
      match withDot with
      | some p => p
      | none => (ds, l2)
    let l5 := grpRest.2.dropWhile (fun c => !(c == '}'))
    match l5 with
    | '}' :: l6 => some (String.mk grpRest.1, l6)
    | _ => none

/-- One keyword alternative of the section pattern, run with its full
tail (exact backtracking through the alternation). -/
def trySectionKw (kw : String) (l1 whole : List Char) : Option (String × Nat) :=
  match matchLitCI kw.data l1 with
  | none => none
  | some l2 =>
    match sectionNumTail l2 with
    | some (g, rest) => some (g, whole.length - rest.length)
    | none => none

/-- latex_parser.py 39: `\\section\{(?:Q|Question|Problem)\s*(\d+(?:\.\d+)?)[^}]*\}`
(IGNORECASE).  The `Q` and `Question` alternatives can never both
succeed at one position (after `Q` the tail requires `\s*\d`, after `Qu`
that fails), so trying each alternative with its full tail in the
pattern's order is exact. -/
def sectionMatchAt : Matcher := fun _ l =>
  match matchLitCI sectionOpenLit.data l with
  | none => none
  | some l1 =>
    match trySectionKw qLit l1 l with
    | some r => some r
    | none =>
      match trySectionKw questionLit l1 l with
      | some r => some r
      | none => trySectionKw problemLit l1 l

/-- latex_parser.py 132 and 92: `\n\s*(\d+)\.\s*` (also subsection
pattern 4). -/
def fbNumDotMatchAt : Matcher := fun _ l =>
  match l with
  | '\n' :: l1 =>
    let l2 := l1.dropWhile pySpace
    let ds := l2.takeWhile Char.isDigit
    if ds.isEmpty then none
    else
      match l2.dropWhile Char.isDigit with
      | '.' :: l3 => some (String.mk ds, l.length - (l3.dropWhile pySpace).length)
      | _ => none
  | _ => none

/-- latex_parser.py 133: `\n\s*Q(\d+):?\s*` (IGNORECASE). -/
def fbQNumMatchAt : Matcher := fun _ l =>
  match l with
  | '\n' :: l1 =>
    let l2 := l1.dropWhile pySpace
    match l2 with
    | c :: l3 =>
      if c.toLower == 'q' then
        let ds := l3.takeWhile Char.isDigit
        if ds.isEmpty then none
        else
          let l4 := l3.dropWhile Char.isDigit
          let l5 := match l4 with
            | ':' :: l4' => l4'
            | _ => l4
          some (String.mk ds, l.length - (l5.dropWhile pySpace).length)
      else none
    | [] => none
  | _ => none

/-- latex_parser.py 134-135: `\n\s*Question\s+(\d+):?\s*` and
`\n\s*Problem\s+(\d+):?\s*` (IGNORECASE). -/
def fbWordMatchAt (word : String) : Matcher := fun _ l =>
  match l with
  | '\n' :: l1 =>
    match matchLitCI word.data (l1.dropWhile pySpace) with
    | some l2 =>
      match sPlus l2 with
      | some l3 =>
        let ds := l3.takeWhile Char.isDigit
        if ds.isEmpty then none
        else
          let l4 := l3.dropWhile Char.isDigit
          let l5 := match l4 with
            | ':' :: l4' => l4'
            | _ => l4
          some (String.mk ds, l.length - (l5.dropWhile pySpace).length)
      | none => none
    | none => none
  | _ => none

/-- Subsection pattern 1 (latex_parser.py 89): `\n\s*\(([a-z])\)\s*`
(IGNORECASE, so any ASCII letter). -/
def subParenAlphaAt : Matcher := fun _ l =>
  match l with
  | '\n' :: l1 =>
    match l1.dropWhile pySpace with
    | '(' :: c :: ')' :: l2 =>
      if asciiAlpha c then
        some (String.singleton c, l.length - (l2.dropWhile pySpace).length)
      else none
    | _ => none
  | _ => none

/-- Subsection patterns 2 and 3 (latex_parser.py 90-91):
`\n\s*([a-z])\)\s*` and `\n\s*([a-z])\.\s*` (IGNORECASE). -/
def subAlphaThenAt (mark : Char) : Matcher := fun _ l =>
  match l with
  | '\n' :: l1 =>
    match l1.dropWhile pySpace with
    | c :: m :: l2 =>
      if asciiAlpha c && m == mark then
        some (String.singleton c, l.length - (l2.dropWhile pySpace).length)
      else none
    | _ => none
  | _ => none

/-- Subsection pattern 5 (latex_parser.py 93): `\n\s*\((\d+)\)\s*`. -/
def subParenNumAt : Matcher := fun _ l =>
  match l with
  | '\n' :: l1 =>
    match l1.dropWhile pySpace with
    | '(' :: l2 =>
      let ds := l2.takeWhile Char.isDigit
      if ds.isEmpty then none
      else
        match l2.dropWhile Char.isDigit with
        | ')' :: l3 => some (String.mk ds, l.length - (l3.dropWhile pySpace).length)
        | _ => none
    | _ => none
  | _ => none

/-- The five subsection patterns in the priority order of
`_extract_subsections`. -/
def subsectionPatterns : List Matcher :=
  [subParenAlphaAt, subAlphaThenAt (')'), subAlphaThenAt ('.'),
   fbNumDotMatchAt, subParenNumAt]

/-- The four fallback patterns in the order of
`_fallback_question_extraction`. -/
def fallbackPatterns : List Matcher :=
  [fbNumDotMatchAt, fbQNumMatchAt, fbWordMatchAt questionLit,
   fbWordMatchAt problemLit]

/-- Skip forward past the first newline, if any (`.*?\n` after a matched
command name: `.` does not match a newline, so the match always runs to
the first newline and fails if there is none). -/
def dropThroughNewline : List Char → Option (List Char)
  | [] => none
  | '\n' :: r => some r
  | _ :: r => dropThroughNewline r

/-- One `re.sub(r'<cmd>.*?\n', '', content)` pass of
`_clean_latex_content`.  Fuel is the list length; every step consumes at
least one character. -/
def removeCmdLines (cmd : List Char) : Nat → List Char → List Char
  | 0, _ => []
  | _ + 1, [] => []
  | fuel + 1, c :: rest =>
    if cmd.isPrefixOf (c :: rest) then
      match dropThroughNewline ((c :: rest).drop cmd.length) with
      | some rest' => removeCmdLines cmd fuel rest'
      | none => c :: removeCmdLines cmd fuel rest
    else c :: removeCmdLines cmd fuel rest

/-- One `re.sub(<literal>, '', content)` pass (used for the
`\begin{document}` / `\end{document}` tags). -/
def removeLiteral (pat : List Char) : Nat → List Char → List Char
  | 0, _ => []
  | _ + 1, [] => []
  | fuel + 1, c :: rest =>
    if pat.isPrefixOf (c :: rest) then
      removeLiteral pat fuel ((c :: rest).drop pat.length)
    else c :: removeLiteral pat fuel rest

def documentclassLit : String := "\\documentclass"
def usepackageLit : String := "\\usepackage"
def titleCmdLit : String := "\\title"
def authorCmdLit : String := "\\author"
def dateCmdLit : String := "\\date"
def maketitleCmdLit : String := "\\maketitle"
def beginDocumentLit : String := "\\begin{document}"
def endDocumentLit : String := "\\end{document}"

/-- Embedding of `_clean_latex_content` (latex_parser.py 175-190): strip
preamble command lines and the document-environment tags, then strip. -/
def cleanLatexContent (content : String) : String :=
  let stepCmd : String → List Char → List Char := fun cmd l =>
    removeCmdLines cmd.data l.length l
  let stepLit : String → List Char → List Char := fun pat l =>
    removeLiteral pat.data l.length l
  let l1 := stepCmd documentclassLit content.data
  let l2 := stepCmd usepackageLit l1
  let l3 := stepCmd titleCmdLit l2
  let l4 := stepCmd authorCmdLit l3
  let l5 := stepCmd dateCmdLit l4
  let l6 := stepCmd maketitleCmdLit l5
  let l7 := stepLit beginDocumentLit l6
  let l8 := stepLit endDocumentLit l7
  pythonStrip (String.mk l8)

/-- For `re.sub(r'\n\s*\n', '\n\n', text)`: given the characters after a
leading newline, locate the last newline inside the following maximal
whitespace run (the greedy `\s*` backtracks exactly to it) and return the
suffix after it, or `none` when the run contains no newline. -/
def lastNewlineOfRun (l : List Char) : Option (List Char) :=
  let run := l.takeWhile pySpace
  match run.reverse.findIdx? (fun c => c == '\n') with
  | none => none
  | some j => some (l.drop (run.length - j))

/-- The first substitution of `_clean_text`: collapse every
newline-whitespace-newline stretch to exactly two newlines. -/
def collapseNewlines : Nat → List Char → List Char
  | 0, _ => []
  | _ + 1, [] => []
  | fuel + 1, c :: rest =>
    if c == '\n' then
      match lastNewlineOfRun rest with
      | some rest' => '\n' :: '\n' :: collapseNewlines fuel rest'
      | none => c :: collapseNewlines fuel rest
    else c :: collapseNewlines fuel rest

/-- The second substitution of `_clean_text`: `re.sub(r' +', ' ', text)`
(spaces only, not tabs). -/
def collapseSpaces : Nat → List Char → List Char
  | 0, _ => []
  | _ + 1, [] => []
  | fuel + 1, c :: rest =>
    if c == ' ' then ' ' :: collapseSpaces fuel (rest.dropWhile (fun x => x == ' '))
    else c :: collapseSpaces fuel rest

/-- Embedding of `_clean_text` (latex_parser.py 192-198). -/
def cleanText (text : String) : String :=
  let l1 := collapseNewlines text.data.length text.data
  let l2 := collapseSpaces l1.length l1
  pythonStrip (String.mk l2)

/-- The `try: latex_to_text / _clean_text except: raw` pattern applied to
one span (latex_parser.py 72-78, 114-119, 156-160, 167-171).  `conv` is
the abstract pylatexenc converter; `none` models it raising. -/
def convertSpan (conv : String → Option String) (s : String) : String :=
  match conv s with
  | some t => cleanText t
  | none => s

/-- Embedding of `_extract_subsections` (latex_parser.py 84-125): first
pattern with at least two matches wins; the spans become a dict keyed by
the captured marker. -/
def extractSubsections (conv : String → Option String) (content : String) :
    List Matcher → Option (List (String × String))
  | [] => none
  | p :: ps =>
    let ms := finditer p content
    if ms.length ≥ 2 then
      some (((spanStrings content.data ms).map
        (fun pr => (pr.1, convertSpan conv pr.2))).foldl
          (fun m pr => dictInsert m pr.1 pr.2) [])
    else extractSubsections conv content ps

/-- The body of the section loop of `_extract_questions` (latex_parser.py
50-81) for one section span. -/
def sectionEntry (conv : String → Option String)
    (qs : List (String × String)) (pr : String × String) :
    List (String × String) :=
  match extractSubsections conv pr.2 subsectionPatterns with
  | some subs =>
    subs.foldl (fun m sp => dictInsert m (qLit ++ pr.1 ++ (".") ++ sp.1) sp.2) qs
  | none => dictInsert qs (qLit ++ pr.1) (convertSpan conv pr.2)

/-- Embedding of `_fallback_question_extraction` (latex_parser.py
127-173): the first fallback pattern with at least one match segments the
document; with none, the whole cleaned document becomes entry `"q1"`. -/
def fallbackExtraction (conv : String → Option String) (content : String) :
    List Matcher → List (String × String)
  | [] => [(qLit ++ ("1"), convertSpan conv content)]
  | p :: ps =>
    let ms := finditer p content
    if ms.isEmpty then fallbackExtraction conv content ps
    else
      (spanStrings content.data ms).foldl
        (fun qs pr => dictInsert qs (qLit ++ pr.1) (convertSpan conv pr.2)) []

/-- Embedding of `_extract_questions` (latex_parser.py 31-82). -/
def extractQuestions (conv : String → Option String) (latex_content : String) :
    List (String × String) :=
  let content := cleanLatexContent latex_content
  let sections := finditer sectionMatchAt content
  if sections.isEmpty then fallbackExtraction conv content fallbackPatterns
  else (spanStrings content.data sections).foldl (sectionEntry conv) []

/-- Embedding of `parse_latex_submission` / `parse_latex_file`
(latex_parser.py 12-29, 201-213): the file system is abstract; a failed
read is the only failure (`_extract_questions` is total). -/
def parseLatexSubmission (fs : String → Option String)
    (conv : String → Option String) (file_path : String) :
    Except String (List (String × String)) :=
  match fs file_path with
  | none => Except.error ("Error parsing LaTeX file: read failed")
  | some content => Except.ok (extractQuestions conv content)

/-! ## DocumentParsingService heuristic fallback:
`_create_mock_parse_result` (llm_service.py 404-544) -/

/-- The pydantic `QuestionPart` (llm_service.py 15-20).  The mock always
constructs every field, so `max_points` is plain `Int` here. -/
structure QuestionPart where
  id : String
  question_text : String := ""
  answer_text : String := ""
  rubric_text : String := ""
  max_points : Int := 10
deriving DecidableEq, Repr

/-- The pydantic `ParsedQuestion` (llm_service.py 23-29). -/
structure ParsedQuestion where
  id : String
  question_text : String := ""
  answer_text : String := ""
  rubric_text : String := ""
  max_points : Int := 10
  parts : List QuestionPart := []
deriving DecidableEq, Repr

/-- The pydantic `DocumentParseResult` (llm_service.py 32-37). -/
structure DocumentParseResult where
  questions : List ParsedQuestion
  document_type : String
deriving DecidableEq, Repr

/-- Tail of the mock section pattern after the keyword:
`(\d+)(?:\s*\([^)]*\))?\}`.  The optional parenthesised annotation is
taken greedily and dropped again if the closing brace does not follow. -/
def mockSectionTail (l : List Char) : Option (String × List Char) :=
  let ds := l.takeWhile Char.isDigit
  if ds.isEmpty then none
  else
    let l2 := l.dropWhile Char.isDigit
    let withAnn : Option (List Char) :=
      match l2.dropWhile pySpace with
      | '(' :: l3 =>
        match l3.dropWhile (fun c => !(c == ')')) with
        | ')' :: l4 => some l4
        | _ => none
      | _ => none
    match withAnn with
    | some l4 =>
      match l4 with
      | '}' :: l5 => some (String.mk ds, l5)
      | _ =>
        match l2 with
        | '}' :: l5 => some (String.mk ds, l5)
        | _ => none
    | none =>
      match l2 with
      | '}' :: l5 => some (String.mk ds, l5)
      | _ => none

/-- One keyword alternative of the mock section pattern
(`Question\s*`, `Q`, `Problem\s*`: only the first and third swallow
following whitespace). -/
def tryMockKw (kw : String) (spacesAfter : Bool) (l1 whole : List Char) :
    Option (String × Nat) :=
  match matchLitCI kw.data l1 with
  | none => none
  | some l2 =>
    let l2' := if spacesAfter then l2.dropWhile pySpace else l2
    match mockSectionTail l2' with
    | some (g, rest) => some (g, whole.length - rest.length)
    | none => none

/-- llm_service.py 412:
`\\section\{(?:Question\s*|Q|Problem\s*)(\d+)(?:\s*\([^)]*\))?\}`
(IGNORECASE), alternatives tried in the pattern's order. -/
def mockSectionMatchAt : Matcher := fun _ l =>
  match matchLitCI sectionOpenLit.data l with
  | none => none
  | some l1 =>
    match tryMockKw questionLit true l1 l with
    | some r => some r
    | none =>
      match tryMockKw qLit false l1 l with
      | some r => some r
      | none => tryMockKw problemLit true l1 l

/-- llm_service.py 418: `\n\s*(\d+)\.?\s+` — digits, an optional dot
(dropped again if no whitespace follows it), then at least one
whitespace character. -/
def mockFbNumMatchAt : Matcher := fun _ l =>
  match l with
  | '\n' :: l1 =>
    let l2 := l1.dropWhile pySpace
    let ds := l2.takeWhile Char.isDigit
    if ds.isEmpty then none
    else
      let l3 := l2.dropWhile Char.isDigit
      let tailFrom : List Char → Option (List Char) := sPlus
      match l3 with
      | '.' :: l4 =>
        match tailFrom l4 with
        | some rest => some (String.mk ds, l.length - rest.length)
        | none =>
          match tailFrom l3 with
          | some rest => some (String.mk ds, l.length - rest.length)
          | none => none
      | _ =>
        match tailFrom l3 with
        | some rest => some (String.mk ds, l.length - rest.length)
        | none => none
  | _ => none

/-- llm_service.py 419-420: `\n\s*Question\s+(\d+)` and
`\n\s*Problem\s+(\d+)` (IGNORECASE) — no trailing consumption. -/
def mockFbWordMatchAt (word : String) : Matcher := fun _ l =>
  match l with
  | '\n' :: l1 =>
    match matchLitCI word.data (l1.dropWhile pySpace) with
    | some l2 =>
      match sPlus l2 with
      | some l3 =>
        let ds := l3.takeWhile Char.isDigit
        if ds.isEmpty then none
        else some (String.mk ds, l.length - (l3.dropWhile Char.isDigit).length)
      | none => none
    | none => none
  | _ => none

def itemOpenLit : String := "\\item["

/-- Alternative 1/2 of the part pattern: `\\item\[\(?([a-z])\)?\]` and
`\\item\[([a-z])\]` (the second is subsumed by the first; both are tried
in order for fidelity).  Backtracking over `\(?` and `\)?` is explicit. -/
def mockItemAlt (l : List Char) : Option (String × Nat) :=
  match matchLitCI itemOpenLit.data l with
  | none => none
  | some l1 =>
    let noParen : Option (String × List Char) :=
      match l1 with
      | c :: ']' :: l2 => if asciiAlpha c then some (String.singleton c, l2) else none
      | c :: ')' :: ']' :: l2 =>
        if asciiAlpha c then some (String.singleton c, l2) else none
      | _ => none
    let res : Option (String × List Char) :=
      match l1 with
      | '(' :: c :: ')' :: ']' :: l2 =>
        if asciiAlpha c then some (String.singleton c, l2) else noParen
      | '(' :: c :: ']' :: l2 =>
        if asciiAlpha c then some (String.singleton c, l2) else noParen
      | _ => noParen
    match res with
    | some (g, rest) => some (g, l.length - rest.length)
    | none => none

/-- Alternative 3 of the part pattern: `^\s*\(?([a-z])\)\s*` with
`re.MULTILINE` (`^` fires at the document start or right after a
newline). -/
def mockLineAlt (atStart : Bool) (l : List Char) : Option (String × Nat) :=
  if atStart then
    let l1 := l.dropWhile pySpace
    let core : Option (List Char) :=
      match l1 with
      | '(' :: c :: ')' :: l2 => if asciiAlpha c then some (c :: ')' :: l2) else none
      | _ => none
    match core with
    | some (c :: _ :: l2) =>
      some (String.singleton c, l.length - (l2.dropWhile pySpace).length)
    | _ =>
      match l1 with
      | c :: ')' :: l2 =>
        if asciiAlpha c then
          some (String.singleton c, l.length - (l2.dropWhile pySpace).length)
        else none
      | _ => none
  else none

/-- llm_service.py 444: the full part pattern
`\\item\[\(?([a-z])\)?\]|\\item\[([a-z])\]|^\s*\(?([a-z])\)\s*`
(MULTILINE | IGNORECASE). -/
def mockPartMatchAt : Matcher := fun atStart l =>
  match mockItemAlt l with
  | some r => some r
  | none => mockLineAlt atStart l

def pointWordLit : String := "point"

/-- Whether `(\d+)\s*points?` (IGNORECASE) matches with the digit run
starting at the head of `l`; returns the captured digits. -/
def pointsMatchAt (l : List Char) : Option String :=
  let ds := l.takeWhile Char.isDigit
  if ds.isEmpty then none
  else
    match matchLitCI pointWordLit.data ((l.dropWhile Char.isDigit).dropWhile pySpace) with
    | some _ => some (String.mk ds)
    | none => none

/-- `re.search(r'(\d+)\s*points?', text, re.IGNORECASE)` of
llm_service.py 470/512: the leftmost match's digits as an integer
(the optional trailing `s` affects only the match span, which is unused). -/
def findPoints (text : String) : Option Int :=
  match text.data.tails.findSome? (fun t => pointsMatchAt t) with
  | some ds => some ((digitsToNat ds.data : Nat) : Int)
  | none => none

def endEnumerateLit : String := "\\end{enumerate}"
def beginEnumerateLit : String := "\\begin{enumerate}"

/-- Python `s.split(sep)[0]` for nonempty `sep` (also the effect of
`re.sub(r'<literal>.*', '', s, flags=re.DOTALL)`): everything before the
first occurrence of `sep`, or all of `s` when absent. -/
def strBeforeAux (pat : List Char) : Nat → List Char → List Char
  | 0, _ => []
  | _ + 1, [] => []
  | fuel + 1, c :: rest =>
    if pat.isPrefixOf (c :: rest) then []
    else c :: strBeforeAux pat fuel rest

def strBefore (sep s : String) : String :=
  String.mk (strBeforeAux sep.data s.data.length s.data)

/-- The raw matches of the part pattern inside one question span
(llm_service.py 445). -/
def mockPartMatches (question_content : String) : List ReMatch :=
  finditer mockPartMatchAt question_content

/-- Per-part content: the span to the next part match (or the end),
stripped, with everything from `\end{enumerate}` on removed, stripped
again (llm_service.py 454-465). -/
def mockPartSpans (question_content : String) : List (String × String) :=
  (spanStrings question_content.data (mockPartMatches question_content)).map
    (fun pr => (pr.1, pythonStrip (strBefore endEnumerateLit pr.2)))

/-- Part point value (llm_service.py 467-472): 5, unless the document is
a rubric and the part content carries an explicit point annotation. -/
def mockPartPoints (document_type : String) (part_content : String) : Int :=
  if document_type = "rubric" then
    match findPoints part_content with
    | some n => n
    | none => 5
  else 5

/-- One `QuestionPart` of the mock (llm_service.py 474-494). -/
def mkMockPart (document_type : String) (question_num : String)
    (pr : String × String) : QuestionPart :=
  { id := question_num ++ pr.1,
    question_text := if document_type = "assignment" then pr.2 else "",
    answer_text := if document_type = "answer_key" then pr.2 else "",
    rubric_text :=
      if document_type = "assignment" ∨ document_type = "answer_key" then ""
      else pr.2,
    max_points := mockPartPoints document_type pr.2 }

/-- The main-question content (llm_service.py 496-507): the prefix before
the first part match's full text when parts were found, then everything
from `\begin{enumerate}` on removed, stripped. -/
def mockMainContent (question_content : String) : String :=
  let ms := mockPartMatches question_content
  let base :=
    match ms with
    | [] => question_content
    | m :: _ =>
      pythonStrip (strBefore
        (String.mk ((question_content.data.drop m.start).take (m.stop - m.start)))
        question_content)
  pythonStrip (strBefore beginEnumerateLit base)

/-- Question point value (llm_service.py 509-517): default 20 with parts
/ 10 without; for a rubric an explicit annotation wins, else a parent
with parts takes the sum of its parts. -/
def mockQuestionPoints (document_type : String) (main_content question_content : String)
    (partPts : List Int) : Int :=
  let dflt : Int := if partPts.isEmpty then 10 else 20
  if document_type = "rubric" then
    match findPoints (if main_content = "" then question_content else main_content) with
    | some n => n
    | none => if partPts.isEmpty then dflt else partPts.sum
  else dflt

/-- One `ParsedQuestion` of the mock (llm_service.py 429-539) from a
section span. -/
def buildMockQuestion (document_type : String) (pr : String × String) :
    ParsedQuestion :=
  let parts := (mockPartSpans pr.2).map (mkMockPart document_type pr.1)
  let main := mockMainContent pr.2
  let mp := mockQuestionPoints document_type main pr.2 (parts.map (fun p => p.max_points))
  { id := pr.1,
    question_text := if document_type = "assignment" then main else "",
    answer_text := if document_type = "answer_key" then main else "",
    rubric_text :=
      if document_type = "assignment" ∨ document_type = "answer_key" then ""
      else main,
    max_points := mp,
    parts := parts }

/-- The section matches the mock segments on (llm_service.py 411-427):
the section pattern, else the first fallback pattern with a match. -/
def mockSections (content : String) : List ReMatch :=
  let sections := finditer mockSectionMatchAt content
  if sections.isEmpty then
    let m1 := finditer mockFbNumMatchAt content
    if m1.isEmpty then
      let m2 := finditer (mockFbWordMatchAt questionLit) content
      if m2.isEmpty then finditer (mockFbWordMatchAt problemLit) content
      else m2
    else m1
  else sections

/-- Embedding of `_create_mock_parse_result(content, document_type)`. -/
def createMockParseResult (content document_type : String) :
    DocumentParseResult :=
  { questions :=
      (spanStrings content.data (mockSections content)).map
        (buildMockQuestion document_type),
    document_type := document_type }

/-! ## GradingPipeline: `grade_submission_questions` (llm_service.py
589-638) and `trigger_grading` (grading_service.py 31-136) -/

/-- The value of one rubric entry, of which the code reads only
`max_points` (absent means the Python default 10); the remaining fields
feed only the prompt of the abstract oracle. -/
structure RubricEntry where
  max_points : Option Int := none
deriving DecidableEq, Repr

/-- Python truthiness of `_find_matching_key`'s result in
`if answer_key_match and rubric_key_match:` — `None` and the empty
string are both falsy. -/
def optTruthy : Option String → Bool
  | none => false
  | some s => !(s == "")

/-- The synthesized identifier-mismatch result (llm_service.py 630-636). -/
def mismatchResult (question_id : String) : GradingResult :=
  { score := 0,
    feedback := "No matching answer key or rubric found for question " ++
      question_id ++ ". Please review manually.",
    reasoning := some ("Question ID mismatch - unable to grade automatically"),
    satisfies_rubric := some false }

/-- The per-answer body of the loop of `grade_submission_questions`
(llm_service.py 611-636): reconcile against both key sets, grade via the
adapter on success, synthesize a mismatch result otherwise.  `oracle`
gives the reply stream of the grading call for one submitted identifier. -/
def gradeOne (apiKey : String) (oracle : String → Nat → OracleReply)
    (answer_key : List (String × String)) (rubric : List (String × RubricEntry))
    (p : String × String) : GradingResult :=
  let akMatch := findMatchingKey p.1 (answer_key.map (fun e => e.1))
  let rkMatch := findMatchingKey p.1 (rubric.map (fun e => e.1))
  if optTruthy akMatch && optTruthy rkMatch then
    let entry := (lookupAssoc rubric (rkMatch.getD (""))).getD {}
    let mp := entry.max_points.getD 10
    (gradeQuestion apiKey (oracle p.1) mp).1
  else mismatchResult p.1

/-- The result dict accumulated by the loop of
`grade_submission_questions`. -/
def runResults (apiKey : String) (oracle : String → Nat → OracleReply)
    (questions_answers : List (String × String))
    (answer_key : List (String × String))
    (rubric : List (String × RubricEntry)) :
    List (String × GradingResult) :=
  questions_answers.foldl
    (fun res p => dictInsert res p.1 (gradeOne apiKey oracle answer_key rubric p))
    []

/-- Embedding of `grade_submission_questions` (llm_service.py 589-638);
the `LLMService()` construction at its head raises when the key is
unset, which the pipeline catches as a grading failure. -/
def gradeSubmissionQuestions (apiKey : String)
    (oracle : String → Nat → OracleReply)
    (questions_answers : List (String × String))
    (answer_key : List (String × String))
    (rubric : List (String × RubricEntry)) :
    Except String (List (String × GradingResult)) :=
  match llmServiceInit apiKey with
  | Except.error e => Except.error e
  | Except.ok _ =>
    Except.ok (runResults apiKey oracle questions_answers answer_key rubric)

/-- `SubmissionStatus` (models/submission.py 8-13). -/
inductive SubmissionStatus where
  | uploaded
  | processing
  | graded
  | reviewed
  | error
deriving DecidableEq, Repr

/-- The columns of `Submission` the pipeline touches
(models/submission.py). -/
structure Submission where
  id : Nat
  assignment_id : Nat
  file_path : String
  parsed_json : Option (List (String × String)) := none
  status : SubmissionStatus := SubmissionStatus.uploaded
  total_score : Int := 0
deriving DecidableEq, Repr

/-- The columns of `Assignment` the pipeline reads. -/
structure Assignment where
  id : Nat
  answer_key_json : List (String × String)
  rubric_json : List (String × RubricEntry)
deriving DecidableEq, Repr

/-- The columns of `Grade` the pipeline writes (models/grade.py,
grading_service.py 96-105). -/
structure GradeRow where
  submission_id : Nat
  question_no : String
  ai_score : Int
  ai_feedback : String
  ai_satisfies_rubric : Option Bool
  final_score : Int
  final_feedback : String
  human_reviewed : Bool
deriving DecidableEq, Repr

/-- The durable store as the pipeline sees it. -/
structure DB where
  submissions : List Submission
  assignments : List Assignment
  grades : List GradeRow
deriving DecidableEq, Repr

/-- The environment of one run: file system, LaTeX converter, configured
API key, and the oracle's reply stream per submitted identifier and
attempt.  All components are pure functions, so the oracle is
deterministic across runs by construction. -/
structure Env where
  fs : String → Option String
  conv : String → Option String
  apiKey : String
  oracle : String → Nat → OracleReply

/-- Outcome of one pipeline run: the Celery task's return value, or the
exception it re-raises after forcing `ERROR`. -/
inductive RunOutcome where
  | success (total_score : Int) (questions_graded : Nat)
  | failure (diagnostic : String)
deriving Repr

def findSubmission (db : DB) (sid : Nat) : Option Submission :=
  db.submissions.find? (fun s => s.id == sid)

/-- Commit an update to the submission row with the given id. -/
def setSubmission (db : DB) (sid : Nat) (f : Submission → Submission) : DB :=
  { db with submissions := db.submissions.map (fun s => if s.id == sid then f s else s) }

/-- The grade row built at grading_service.py 96-105. -/
def toGradeRow (sid : Nat) (p : String × GradingResult) : GradeRow :=
  { submission_id := sid,
    question_no := p.1,
    ai_score := p.2.score,
    ai_feedback := p.2.feedback,
    ai_satisfies_rubric := p.2.satisfies_rubric,
    final_score := p.2.score,
    final_feedback := p.2.feedback,
    human_reviewed := false }

/-- The submission-row updates the pipeline commits, named so that the
store lemmas can refer to them. -/
def setProcessing : Submission → Submission :=
  fun s => { s with status := SubmissionStatus.processing }

def setErrorStatus : Submission → Submission :=
  fun s => { s with status := SubmissionStatus.error }

def setParsed (parsed : List (String × String)) : Submission → Submission :=
  fun s => { s with parsed_json := some parsed }

def setGradedTotal (total : Int) : Submission → Submission :=
  fun s => { s with total_score := total, status := SubmissionStatus.graded }

/-- Embedding of the Celery task `trigger_grading(submission_id)`
(grading_service.py 31-136).

Failure paths mirror the code exactly:
  * submission missing: the `except` handler finds `submission` bound to
    `None` and itself raises `AttributeError`, so no status is written;
  * file read failure: the inner handler sets `ERROR`, commits and
    re-raises (the outer handler sets `ERROR` again);
  * assignment missing / `LLMService()` raising inside
    `grade_submission_questions`: the handlers set `ERROR`;
  * otherwise grades are replaced (delete-then-insert), `total_score`
    becomes the sum of the fresh scores and the status becomes `GRADED`. -/
def triggerGrading (env : Env) (db : DB) (submission_id : Nat) :
    DB × RunOutcome :=
  match findSubmission db submission_id with
  | none =>
    (db, RunOutcome.failure ("AttributeError: NoneType has no attribute status"))
  | some sub =>
    let db1 := setSubmission db submission_id setProcessing
    match env.fs sub.file_path with
    | none =>
      (setSubmission db1 submission_id setErrorStatus,
       RunOutcome.failure ("LaTeX parsing failed: Error parsing LaTeX file"))
    | some content =>
      let parsed := extractQuestions env.conv content
      let db2 := setSubmission db1 submission_id (setParsed parsed)
      match db2.assignments.find? (fun a => a.id == sub.assignment_id) with
      | none =>
        (setSubmission db2 submission_id setErrorStatus,
         RunOutcome.failure ("Assignment " ++ toString sub.assignment_id ++ " not found"))
      | some asg =>
        match gradeSubmissionQuestions env.apiKey env.oracle parsed
            asg.answer_key_json asg.rubric_json with
        | Except.error e =>
          (setSubmission db2 submission_id setErrorStatus,
           RunOutcome.failure ("AI grading failed: " ++ e))
        | Except.ok results =>
          let rows := results.map (toGradeRow submission_id)
          let total := (results.map (fun p => p.2.score)).sum
          let db3 := { db2 with
            grades := db2.grades.filter
              (fun g => !(g.submission_id == submission_id)) ++ rows }
          let db4 := setSubmission db3 submission_id (setGradedTotal total)
          (db4, RunOutcome.success total results.length)

/-- Status of a submission in the store. -/
def statusOf (db : DB) (sid : Nat) : Option SubmissionStatus :=
  (findSubmission db sid).map (fun s => s.status)

/-- The persisted grade rows of a submission. -/
def gradesFor (db : DB) (sid : Nat) : List GradeRow :=
  db.grades.filter (fun g => g.submission_id == sid)

/-- The persisted total score of a submission. -/
def totalOf (db : DB) (sid : Nat) : Option Int :=
  (findSubmission db sid).map (fun s => s.total_score)

/-! ## Concrete instances used by witnesses and counterexamples -/

/-- A converter that succeeds and returns its input unchanged (what
pylatexenc does on plain text). -/
def convId : String → Option String := fun s => some s

/-- An oracle whose replies never decode. -/
def oracleInvalidJson : Nat → OracleReply := fun _ => OracleReply.reply OracleJson.invalid

/-- An oracle whose first call raises (transport failure). -/
def oracleDown : Nat → OracleReply := fun _ => OracleReply.failure ("timeout")

/-- A well-formed oracle reply worth 7 of 10 points. -/
def oracleSeven : Nat → OracleReply := fun _ =>
  OracleReply.reply (OracleJson.obj
    [(("score"), JsonVal.jnum 7), (("feedback"), JsonVal.jstr ("fine"))])

/-- A decoded reply whose score exceeds the maximum. -/
def fieldsHigh : List (String × JsonVal) :=
  [(("score"), JsonVal.jnum 15), (("feedback"), JsonVal.jstr ("ok"))]

/-- A decoded reply carrying only the two required fields. -/
def fieldsMinimal : List (String × JsonVal) :=
  [(("score"), JsonVal.jnum 3), (("feedback"), JsonVal.jstr ("ok"))]

def wAnswerKey : List (String × String) := [(("q1"), ("Paris")), (("q2"), ("42"))]

def wRubric : List (String × RubricEntry) :=
  [(("q1"), { max_points := some 5 }), (("q2"), { max_points := some 5 })]

def wAssignment : Assignment :=
  { id := 1, answer_key_json := wAnswerKey, rubric_json := wRubric }

def wSubmission : Submission :=
  { id := 1, assignment_id := 1, file_path := "sub.tex" }

/-- A three-question submission document; `Q3` has no canonical
counterpart in `wAnswerKey`/`wRubric`. -/
def wContent : String := "\\section{Q1} a\n\\section{Q2} b\n\\section{Q3} c"

def wDB : DB :=
  { submissions := [wSubmission], assignments := [wAssignment], grades := [] }

/-- An oracle granting 5 points with full rubric satisfaction. -/
def wOracle : String → Nat → OracleReply := fun _ _ =>
  OracleReply.reply (OracleJson.obj
    [(("score"), JsonVal.jnum 5), (("feedback"), JsonVal.jstr ("good")),
     (("satisfies_rubric"), JsonVal.jbool true),
     (("reasoning"), JsonVal.jstr ("exact"))])

def wEnv : Env :=
  { fs := fun _ => some wContent, conv := convId, apiKey := "sk-test",
    oracle := wOracle }

/-- The same deployment with an unreadable submission file. -/
def wEnvBadFs : Env :=
  { fs := fun _ => none, conv := convId, apiKey := "sk-test", oracle := wOracle }

/-- The grading results, grade rows and total of a successful run, as
functions of the run inputs (used to state the success-path lemma). -/
def successResults (env : Env) (content : String) (asg : Assignment) :
    List (String × GradingResult) :=
  runResults env.apiKey env.oracle (extractQuestions env.conv content)
    asg.answer_key_json asg.rubric_json

def successTotal (env : Env) (content : String) (asg : Assignment) : Int :=
  ((successResults env content asg).map (fun p => p.2.score)).sum

def successRows (env : Env) (content : String) (asg : Assignment) (sid : Nat) :
    List GradeRow :=
  (successResults env content asg).map (toGradeRow sid)

/-! ## Theorems -/

/-! ### IdentifierReconciler (claim C2) -/

theorem tryPrefixes_eq_find (parts keys : List String) :
    ∀ n, tryPrefixes parts keys n =
      (((List.range n).reverse).map
        (fun i => String.intercalate (".") (parts.take (i + 1)))).find?
        (fun p => keys.contains p) := by
  intro n
  induction n with
  | zero => simp [tryPrefixes]
  | succ i ih =>
    rw [List.range_succ, List.reverse_append]
    simp only [List.reverse_cons, List.reverse_nil, List.nil_append,
      List.singleton_append, List.map_cons, List.find?_cons]
    rw [tryPrefixes]
    cases h : keys.contains (String.intercalate (".") (parts.take (i + 1))) with
    | true => simp [h]
    | false => simp [h, ih]

/-- The claim's chain and the code coincide. -/
theorem findMatchingKey_eq_reconcileSpec (id : String) (candidates : List String) :
    findMatchingKey id candidates = reconcileSpec id candidates := by
  unfold findMatchingKey reconcileSpec tryExactMatch tryTruncation
    tryLeadingInteger trySingleton
  cases h : candidates.contains id with
  | true => simp [h, Option.orElse]
  | false =>
    simp only [h, if_false, if_true, Bool.false_eq_true, Option.orElse]
    rw [tryPrefixes_eq_find]
    cases hp : (((List.range ((pySplitDot id).length - 1)).reverse).map
        (fun i => String.intercalate (".") ((pySplitDot id).take (i + 1)))).find?
        (fun p => candidates.contains p) with
    | some k => simp
    | none =>
      simp only
      cases hm : matchLeadingQNum id with
      | some sk =>
        by_cases hc : sk ∈ candidates
        · simp [hc]
        · cases candidates with
          | nil => simp [hc]
          | cons a t =>
            cases t with
            | nil =>
              have hne : sk ≠ a := by simpa using hc
              simp [hc, hne]
            | cons b t' => simp [hc]
      | none =>
        cases candidates with
        | nil => rfl
        | cons a t => cases t <;> rfl


/-- C2: `_find_matching_key` is pure and deterministic (it is a function
of its two arguments) and is exactly the ordered first-hit-wins chain:
(1) exact match; (2) progressive prefix truncation at the dot delimiter,
longest to shortest; (3) leading-integer extraction in the `q<digits>`
form; (4) unconditional singleton candidate; (5) none — and it satisfies
the four quoted examples. -/
theorem C2_reconciler_is_spec_chain :
    (∀ id candidates, findMatchingKey id candidates = reconcileSpec id candidates)
    ∧ findMatchingKey ("3.2.b") [("3")] = some ("3")
    ∧ findMatchingKey ("q7") [("q7")] = some ("q7")
    ∧ findMatchingKey ("x") [] = none
    ∧ findMatchingKey ("anything") [("only")] = some ("only") :=
  ⟨findMatchingKey_eq_reconcileSpec, by rfl, by rfl, by rfl, by rfl⟩

/-! ### GradingOracleAdapter (claims C3, C4, C5, C10) -/

theorem gradeLoop_step_failure (oracle : Nat → OracleReply) (mp : Int)
    (attempt r : Nat) (msg : String)
    (h : oracle attempt = OracleReply.failure msg) :
    gradeLoop oracle mp attempt (r + 1) = (unexpectedErrResult msg, 1) := by
  conv_lhs => rw [gradeLoop]
  simp [h]

theorem gradeLoop_step_ok (oracle : Nat → OracleReply) (mp : Int)
    (attempt r : Nat) (d : OracleJson) (res : GradingResult)
    (h : oracle attempt = OracleReply.reply d)
    (hp : parseResponse d mp = Except.ok res) :
    gradeLoop oracle mp attempt (r + 1) = (res, 1) := by
  conv_lhs => rw [gradeLoop]
  simp [h, hp]

theorem gradeLoop_step_typeErr (oracle : Nat → OracleReply) (mp : Int)
    (attempt r : Nat) (d : OracleJson) (msg : String)
    (h : oracle attempt = OracleReply.reply d)
    (hp : parseResponse d mp = Except.error (ParseErr.typeError msg)) :
    gradeLoop oracle mp attempt (r + 1) = (unexpectedErrResult msg, 1) := by
  conv_lhs => rw [gradeLoop]
  simp [h, hp]

theorem gradeLoop_step_retry (oracle : Nat → OracleReply) (mp : Int)
    (attempt r : Nat) (d : OracleJson) (msg : String)
    (h : oracle attempt = OracleReply.reply d)
    (hp : parseResponse d mp = Except.error (ParseErr.jsonDecode msg) ∨
          parseResponse d mp = Except.error (ParseErr.validation msg)) :
    gradeLoop oracle mp attempt (r + 1 + 1) =
      ((gradeLoop oracle mp (attempt + 1) (r + 1)).1,
       (gradeLoop oracle mp (attempt + 1) (r + 1)).2 + 1) := by
  rcases hp with hp | hp
  · conv_lhs => rw [gradeLoop]
    simp [h, hp]
  · conv_lhs => rw [gradeLoop]
    simp [h, hp]

theorem gradeLoop_step_retry_last (oracle : Nat → OracleReply) (mp : Int)
    (attempt : Nat) (d : OracleJson) (msg : String)
    (h : oracle attempt = OracleReply.reply d)
    (hp : parseResponse d mp = Except.error (ParseErr.jsonDecode msg) ∨
          parseResponse d mp = Except.error (ParseErr.validation msg)) :
    gradeLoop oracle mp attempt 1 = (parseFailResult msg, 1) := by
  rcases hp with hp | hp
  · conv_lhs => rw [gradeLoop]
    simp [h, hp]
  · conv_lhs => rw [gradeLoop]
    simp [h, hp]

theorem gradeLoop_calls_le (oracle : Nat → OracleReply) (mp : Int) :
    ∀ remaining attempt, (gradeLoop oracle mp attempt remaining).2 ≤ remaining := by
  intro remaining
  induction remaining with
  | zero => intro attempt; simp [gradeLoop]
  | succ r ih =>
    intro attempt
    cases h : oracle attempt with
    | failure msg =>
      rw [gradeLoop_step_failure oracle mp attempt r msg h]
      simp
    | reply d =>
      cases hp : parseResponse d mp with
      | ok res =>
        rw [gradeLoop_step_ok oracle mp attempt r d res h hp]
        simp
      | error e =>
        cases e with
        | typeError m =>
          rw [gradeLoop_step_typeErr oracle mp attempt r d m h hp]
          simp
        | jsonDecode m =>
          cases r with
          | zero =>
            rw [gradeLoop_step_retry_last oracle mp attempt d m h (Or.inl hp)]
          | succ r' =>
            rw [gradeLoop_step_retry oracle mp attempt r' d m h (Or.inl hp)]
            have := ih (attempt + 1)
            dsimp only
            omega
        | validation m =>
          cases r with
          | zero =>
            rw [gradeLoop_step_retry_last oracle mp attempt d m h (Or.inr hp)]
          | succ r' =>
            rw [gradeLoop_step_retry oracle mp attempt r' d m h (Or.inr hp)]
            have := ih (attempt + 1)
            dsimp only
            omega

theorem schemaFailure_cases (r : OracleReply) (mp : Int)
    (h : isSchemaFailure r = true) :
    ∃ d, r = OracleReply.reply d ∧
      ((∃ m, parseResponse d mp = Except.error (ParseErr.jsonDecode m)) ∨
       (∃ m, parseResponse d mp = Except.error (ParseErr.validation m))) := by
  cases r with
  | failure m => simp [isSchemaFailure] at h
  | reply d =>
    refine ⟨d, rfl, ?_⟩
    cases d with
    | invalid => exact Or.inl ⟨_, rfl⟩
    | nonObj => simp [isSchemaFailure] at h
    | obj fields =>
      cases hv : validateGradingResult fields with
      | ok res => simp [isSchemaFailure, hv] at h
      | error m => exact Or.inr ⟨m, by simp [parseResponse, hv]⟩

theorem gradeLoop_three_schema (oracle : Nat → OracleReply) (mp : Int)
    (h0 : isSchemaFailure (oracle 0) = true)
    (h1 : isSchemaFailure (oracle 1) = true)
    (h2 : isSchemaFailure (oracle 2) = true) :
    ∃ m, gradeLoop oracle mp 0 3 = (parseFailResult m, 3) := by
  obtain ⟨d0, hd0, he0⟩ := schemaFailure_cases (oracle 0) mp h0
  obtain ⟨d1, hd1, he1⟩ := schemaFailure_cases (oracle 1) mp h1
  obtain ⟨d2, hd2, he2⟩ := schemaFailure_cases (oracle 2) mp h2
  rcases he0 with ⟨m0, hm0⟩ | ⟨m0, hm0⟩ <;>
    rcases he1 with ⟨m1, hm1⟩ | ⟨m1, hm1⟩ <;>
      rcases he2 with ⟨m2, hm2⟩ | ⟨m2, hm2⟩ <;>
        exact ⟨m2, by simp [gradeLoop, hd0, hm0, hd1, hm1, hd2, hm2]⟩

theorem gradeLoop_transport (oracle : Nat → OracleReply) (mp : Int)
    (msg : String) (i : Nat) (hi : i < 3)
    (hpre : ∀ j, j < i → isSchemaFailure (oracle j) = true)
    (hf : oracle i = OracleReply.failure msg) :
    gradeLoop oracle mp 0 3 = (unexpectedErrResult msg, i + 1) := by
  have hcase : i = 0 ∨ i = 1 ∨ i = 2 := by omega
  rcases hcase with rfl | rfl | rfl
  · simp [gradeLoop, hf]
  · obtain ⟨d0, hd0, he0⟩ := schemaFailure_cases (oracle 0) mp (hpre 0 (by omega))
    rcases he0 with ⟨m0, hm0⟩ | ⟨m0, hm0⟩ <;> simp [gradeLoop, hd0, hm0, hf]
  · obtain ⟨d0, hd0, he0⟩ := schemaFailure_cases (oracle 0) mp (hpre 0 (by omega))
    obtain ⟨d1, hd1, he1⟩ := schemaFailure_cases (oracle 1) mp (hpre 1 (by omega))
    rcases he0 with ⟨m0, hm0⟩ | ⟨m0, hm0⟩ <;>
      rcases he1 with ⟨m1, hm1⟩ | ⟨m1, hm1⟩ <;>
        simp [gradeLoop, hd0, hm0, hd1, hm1, hf]

/-- C3: `grade_question` never raises: it makes at most 3 oracle calls;
when every reply fails JSON decoding or schema validation it returns,
after the third attempt, a degraded result with score 0,
`satisfies_rubric = false` and a diagnostic in `feedback`; and any other
failure of the oracle call at any attempt is returned immediately as such
a degraded zero-score result with no further attempt. -/
theorem C3_adapter_retry_and_degradation :
    (∀ apiKey oracle mp, (gradeQuestion apiKey oracle mp).2 ≤ 3)
    ∧ (∀ apiKey oracle mp, apiKey ≠ placeholderKey →
        isSchemaFailure (oracle 0) = true → isSchemaFailure (oracle 1) = true →
        isSchemaFailure (oracle 2) = true →
        (gradeQuestion apiKey oracle mp).2 = 3 ∧
        (gradeQuestion apiKey oracle mp).1.score = 0 ∧
        (gradeQuestion apiKey oracle mp).1.satisfies_rubric = some false ∧
        ∃ m, (gradeQuestion apiKey oracle mp).1 = parseFailResult m)
    ∧ (∀ apiKey oracle mp msg i, apiKey ≠ placeholderKey → i < 3 →
        (∀ j, j < i → isSchemaFailure (oracle j) = true) →
        oracle i = OracleReply.failure msg →
        gradeQuestion apiKey oracle mp = (unexpectedErrResult msg, i + 1))
    ∧ (∀ msg, (unexpectedErrResult msg).score = 0 ∧
        (unexpectedErrResult msg).satisfies_rubric = some false) := by
  refine ⟨?_, ?_, ?_, ?_⟩
  · intro apiKey oracle mp
    unfold gradeQuestion
    by_cases hk : apiKey = placeholderKey
    · simp [hk]
    · simp only [hk, if_false]
      exact gradeLoop_calls_le oracle mp 3 0
  · intro apiKey oracle mp hk h0 h1 h2
    unfold gradeQuestion
    rw [if_neg hk]
    obtain ⟨m, hm⟩ := gradeLoop_three_schema oracle mp h0 h1 h2
    rw [hm]
    exact ⟨rfl, rfl, rfl, m, rfl⟩
  · intro apiKey oracle mp msg i hk hi hpre hf
    unfold gradeQuestion
    rw [if_neg hk]
    exact gradeLoop_transport oracle mp msg i hi hpre hf
  · intro msg
    exact ⟨rfl, rfl⟩

/-- Witness for C3: a key that is not the placeholder, an oracle whose
replies never decode (three calls, degraded zero-score), and an oracle
whose first call raises (one call, immediate degradation). -/
theorem C3_witness :
    ("sk-test" ≠ placeholderKey
      ∧ (∀ k, isSchemaFailure (oracleInvalidJson k) = true)
      ∧ (gradeQuestion ("sk-test") oracleInvalidJson 10).2 = 3
      ∧ (gradeQuestion ("sk-test") oracleInvalidJson 10).1.score = 0)
    ∧ (oracleDown 0 = OracleReply.failure ("timeout")
      ∧ gradeQuestion ("sk-test") oracleDown 10 =
          (unexpectedErrResult ("timeout"), 1)) := by
  have hk : "sk-test" ≠ placeholderKey := by decide
  have hs : ∀ k, isSchemaFailure (oracleInvalidJson k) = true := fun _ => rfl
  have h3 := C3_adapter_retry_and_degradation.2.1 ("sk-test") oracleInvalidJson 10
    hk (hs 0) (hs 1) (hs 2)
  have ht := C3_adapter_retry_and_degradation.2.2.1 ("sk-test") oracleDown 10
    ("timeout") 0 hk (by omega) (fun j hj => absurd hj (by omega)) rfl
  exact ⟨⟨hk, hs, h3.1, h3.2.1⟩, rfl, ht⟩

/-- C4: for every oracle reply that decodes to a JSON object and passes
validation, the adapter's returned score is exactly
`max 0 (min parsed_score max_points)`; with a non-negative maximum the
returned score therefore lies in `[0, max_points]` regardless of what
the oracle produced, and the same score is what `grade_question`
returns. -/
theorem C4_score_clamped :
    ∀ fields mp r, validateGradingResult fields = Except.ok r →
      (parseResponse (OracleJson.obj fields) mp =
        Except.ok { r with score := max 0 (min r.score mp) })
      ∧ (0 ≤ mp →
          0 ≤ max 0 (min r.score mp) ∧ max 0 (min r.score mp) ≤ mp)
      ∧ (∀ apiKey oracle, apiKey ≠ placeholderKey →
          oracle 0 = OracleReply.reply (OracleJson.obj fields) →
          (gradeQuestion apiKey oracle mp).1.score = max 0 (min r.score mp)) := by
  intro fields mp r hv
  have hpr : parseResponse (OracleJson.obj fields) mp =
      Except.ok { r with score := max 0 (min r.score mp) } := by
    simp [parseResponse, hv, clampScore]
  refine ⟨hpr, ?_, ?_⟩
  · intro hmp
    exact ⟨le_max_left 0 _, max_le hmp (min_le_right _ _)⟩
  · intro apiKey oracle hk h0
    unfold gradeQuestion
    rw [if_neg hk, (show (3 : Nat) = 2 + 1 from rfl),
      gradeLoop_step_ok oracle mp 0 2 (OracleJson.obj fields)
        ({ r with score := max 0 (min r.score mp) }) h0 hpr]

/-- Witness for C4: a reply scoring 15 against a maximum of 10 validates
and comes back clamped to 10. -/
theorem C4_witness :
    validateGradingResult fieldsHigh = Except.ok { score := 15, feedback := "ok" }
    ∧ parseResponse (OracleJson.obj fieldsHigh) 10 =
        Except.ok { score := 10, feedback := "ok" } := by
  have hv : validateGradingResult fieldsHigh =
      Except.ok { score := 15, feedback := "ok" } := by rfl
  have h := (C4_score_clamped fieldsHigh 10 { score := 15, feedback := "ok" } hv).1
  norm_num at h
  exact ⟨hv, h⟩

/-- C5 is refuted: with an absent (empty) API key the adapter does not
short-circuit.  Constructing `LLMService` raises `ValueError`, and a
`grade_question` invocation under the empty key attempts an oracle call
(here exactly one) and returns the oracle's result — score 7, not a
fixed zero-score diagnostic. -/
theorem C5_counterexample :
    llmServiceInit ("") =
      Except.error ("OPENAI_API_KEY must be set in environment variables")
    ∧ (gradeQuestion ("") oracleSeven 10).2 = 1
    ∧ (gradeQuestion ("") oracleSeven 10).1.score = 7
    ∧ (gradeQuestion ("") oracleSeven 10).1 ≠ noKeyResult := by
  exact ⟨rfl, rfl, rfl, by decide⟩

/-- C5 amended: the short-circuit applies exactly to the placeholder
value "your_openai_api_key_here" — for it `grade_question` returns the
fixed zero-score diagnostic without any oracle call; an absent (empty)
key instead makes service construction raise `ValueError` before any
grading call can be made. -/
theorem C5_amended_placeholder_short_circuit :
    (∀ oracle mp, gradeQuestion placeholderKey oracle mp = (noKeyResult, 0))
    ∧ llmServiceInit ("") =
        Except.error ("OPENAI_API_KEY must be set in environment variables")
    ∧ noKeyResult.score = 0
    ∧ noKeyResult.satisfies_rubric = some false := by
  exact ⟨fun oracle mp => by simp [gradeQuestion], rfl, rfl, rfl⟩

/-- C10: only `score` and `feedback` are required.  A decoded object
carrying an integer score and a string feedback but no
`satisfies_rubric` and no `reasoning` field validates (so it is not a
schema violation and is not retried: one oracle call), and the returned
result defaults to `satisfies_rubric = false` and `reasoning = ""`. -/
theorem C10_optional_fields_default :
    ∀ fields n fb,
      lookupField fields ("score") = some (JsonVal.jnum n) →
      lookupField fields ("feedback") = some (JsonVal.jstr fb) →
      lookupField fields ("reasoning") = none →
      lookupField fields ("satisfies_rubric") = none →
      validateGradingResult fields =
        Except.ok { score := n, feedback := fb }
      ∧ (∀ mp, parseResponse (OracleJson.obj fields) mp =
          Except.ok { score := max 0 (min n mp), feedback := fb })
      ∧ (∀ apiKey oracle mp, apiKey ≠ placeholderKey →
          oracle 0 = OracleReply.reply (OracleJson.obj fields) →
          gradeQuestion apiKey oracle mp =
            ({ score := max 0 (min n mp), feedback := fb }, 1)) := by
  intro fields n fb hs hf hr hsr
  have hv : validateGradingResult fields =
      Except.ok { score := n, feedback := fb } := by
    simp [validateGradingResult, hs, hf, hr, hsr, validOptStr, validOptBool]
  have hpr : ∀ mp, parseResponse (OracleJson.obj fields) mp =
      Except.ok { score := max 0 (min n mp), feedback := fb } := by
    intro mp
    simp [parseResponse, hv, clampScore]
  refine ⟨hv, hpr, ?_⟩
  intro apiKey oracle mp hk h0
  unfold gradeQuestion
  rw [if_neg hk, (show (3 : Nat) = 2 + 1 from rfl),
    gradeLoop_step_ok oracle mp 0 2 (OracleJson.obj fields)
      ({ score := max 0 (min n mp), feedback := fb }) h0 (hpr mp)]

/-- Witness for C10: a reply with only the required fields is accepted
with the defaulted optional fields. -/
theorem C10_witness :
    validateGradingResult fieldsMinimal =
      Except.ok { score := 3, feedback := "ok" }
    ∧ parseResponse (OracleJson.obj fieldsMinimal) 10 =
        Except.ok { score := 3, feedback := "ok" }
    ∧ ({ score := 3, feedback := "ok" } : GradingResult).satisfies_rubric = some false
    ∧ ({ score := 3, feedback := "ok" } : GradingResult).reasoning = some ("") := by
  have h := C10_optional_fields_default fieldsMinimal 3 ("ok") rfl rfl rfl rfl
  have h2 := h.2.1 10
  norm_num at h2
  exact ⟨h.1, h2, rfl, rfl⟩

/-! ### DocumentSegmenter (claim C6) -/

/-- C6 amended: segmentation is total, and for every document whose
cleaned content matches neither the primary section-heading pattern nor
any of the four fallback question patterns, it returns exactly one
entry, whose identifier is "q1" (the claim said "1") and whose value is
the cleaned (markup-converted, whitespace-normalized) whole document. -/
theorem C6_amended_fallback_whole_document :
    ∀ conv content,
      finditer sectionMatchAt (cleanLatexContent content) = [] →
      finditer fbNumDotMatchAt (cleanLatexContent content) = [] →
      finditer fbQNumMatchAt (cleanLatexContent content) = [] →
      finditer (fbWordMatchAt questionLit) (cleanLatexContent content) = [] →
      finditer (fbWordMatchAt problemLit) (cleanLatexContent content) = [] →
      extractQuestions conv content =
        [(("q1"), convertSpan conv (cleanLatexContent content))] := by
  intro conv content h0 h1 h2 h3 h4
  simp only [extractQuestions, fallbackPatterns, fallbackExtraction,
    h0, h1, h2, h3, h4, List.isEmpty_nil, if_true]
  rfl

/-- C6 as stated is refuted: a document with no recognizable heading
(here the single word "hello") segments to the single identifier "q1",
not "1". -/
theorem C6_counterexample :
    extractQuestions convId ("hello") = [(("q1"), ("hello"))]
    ∧ (extractQuestions convId ("hello")).map Prod.fst ≠ [("1")] := by
  exact ⟨rfl, by decide⟩

/-- Witness for the amended C6 at a concrete heading-free document. -/
theorem C6_witness :
    finditer sectionMatchAt (cleanLatexContent ("hello")) = []
    ∧ extractQuestions convId ("hello") =
        [(("q1"), convertSpan convId (cleanLatexContent ("hello")))] := by
  exact ⟨rfl,
    C6_amended_fallback_whole_document convId ("hello") rfl rfl rfl rfl rfl⟩

/-! ### DocumentParsingService heuristic fallback (claim C9) -/

/-- C9: the point values of the heuristic fallback.  An explicit
"N points" annotation is read exactly when the document kind is rubric
(for both questions and subparts); otherwise a question defaults to 20
points with detected subparts and 10 without, and every subpart defaults
to 5; and a parent with parts and no explicit point value takes the sum
of its parts' values (the sum rule lives inside the rubric branch, the
only branch in which an explicit value can exist — for the other kinds
the 20-point default of the same sentence applies).  The final two
conjuncts tie these functions to `_create_mock_parse_result`: every
produced question comes from `buildMockQuestion`, whose `max_points`
fields are computed by exactly these functions. -/
theorem C9_mock_point_rules :
    (∀ kind pc, kind ≠ "rubric" → mockPartPoints kind pc = 5)
    ∧ (∀ pc n, findPoints pc = some n → mockPartPoints ("rubric") pc = n)
    ∧ (∀ pc, findPoints pc = none → mockPartPoints ("rubric") pc = 5)
    ∧ (∀ kind main qc pts, kind ≠ "rubric" →
        mockQuestionPoints kind main qc pts =
          if pts.isEmpty then (10 : Int) else 20)
    ∧ (∀ main qc pts n,
        findPoints (if main = "" then qc else main) = some n →
        mockQuestionPoints ("rubric") main qc pts = n)
    ∧ (∀ main qc pts,
        findPoints (if main = "" then qc else main) = none → pts ≠ [] →
        mockQuestionPoints ("rubric") main qc pts = pts.sum)
    ∧ (∀ main qc,
        findPoints (if main = "" then qc else main) = none →
        mockQuestionPoints ("rubric") main qc [] = 10)
    ∧ (∀ content kind q, q ∈ (createMockParseResult content kind).questions →
        ∃ pr, q = buildMockQuestion kind pr)
    ∧ (∀ kind pr,
        (buildMockQuestion kind pr).max_points =
          mockQuestionPoints kind (mockMainContent pr.2) pr.2
            (((buildMockQuestion kind pr).parts).map (fun p => p.max_points))
        ∧ ((buildMockQuestion kind pr).parts).map (fun p => p.max_points) =
          (mockPartSpans pr.2).map (fun sp => mockPartPoints kind sp.2)) := by
  refine ⟨?_, ?_, ?_, ?_, ?_, ?_, ?_, ?_, ?_⟩
  · intro kind pc h; simp [mockPartPoints, h]
  · intro pc n h; simp [mockPartPoints, h]
  · intro pc h; simp [mockPartPoints, h]
  · intro kind main qc pts h; simp [mockQuestionPoints, h]
  · intro main qc pts n h; simp [mockQuestionPoints, h]
  · intro main qc pts h hne
    cases pts with
    | nil => exact absurd rfl hne
    | cons a t => simp [mockQuestionPoints, h]
  · intro main qc h; simp [mockQuestionPoints, h]
  · intro content kind q hq
    simp only [createMockParseResult, List.mem_map] at hq
    obtain ⟨pr, _, hpr⟩ := hq
    exact ⟨pr, hpr.symm⟩
  · intro kind pr
    refine ⟨rfl, ?_⟩
    simp [buildMockQuestion, mkMockPart, List.map_map]

/-- Witness for C9: concrete rubric and assignment fragments exercising
the explicit annotation, the sum rule and the defaults. -/
theorem C9_witness :
    findPoints ("worth 7 points") = some 7
    ∧ mockPartPoints ("rubric") ("worth 7 points") = 7
    ∧ findPoints ("intro") = none
    ∧ mockQuestionPoints ("rubric") ("intro") ("x") [7, 8] = 15
    ∧ mockQuestionPoints ("assignment") ("intro") ("x") [5, 5] = 20
    ∧ mockPartPoints ("assignment") ("worth 7 points") = 5 := by
  refine ⟨rfl, C9_mock_point_rules.2.1 ("worth 7 points") 7 rfl, rfl, ?_, ?_, ?_⟩
  · have h := C9_mock_point_rules.2.2.2.2.2.1 ("intro") ("x") [7, 8] rfl (by decide)
    norm_num at h
    exact h
  · have h := C9_mock_point_rules.2.2.2.1 ("assignment") ("intro") ("x") [5, 5]
      (by decide)
    simpa using h
  · exact C9_mock_point_rules.1 ("assignment") ("worth 7 points") (by decide)

/-! ### GradingPipeline (claims C1, C7, C8) -/

theorem dictInsert_keys_mem {α : Type} (m : List (String × α)) (k : String)
    (v : α) (x : String) :
    x ∈ (dictInsert m k v).map Prod.fst ↔ x ∈ m.map Prod.fst ∨ x = k := by
  induction m with
  | nil => simp [dictInsert]
  | cons a t ih =>
    by_cases h : a.1 = k
    · simp [dictInsert, h]
      tauto
    · simp [dictInsert, h, ih]
      tauto

theorem dictInsert_keys_nodup {α : Type} (m : List (String × α)) (k : String)
    (v : α) (h : (m.map Prod.fst).Nodup) :
    ((dictInsert m k v).map Prod.fst).Nodup := by
  induction m with
  | nil => simp [dictInsert]
  | cons a t ih =>
    by_cases hk : a.1 = k
    · simpa [dictInsert, hk] using h
    · simp only [List.map_cons, List.nodup_cons] at h
      have ht := ih h.2
      simp only [dictInsert, hk, if_false, List.map_cons, List.nodup_cons]
      refine ⟨?_, ht⟩
      rw [dictInsert_keys_mem]
      rintro (hmem | rfl)
      · exact h.1 hmem
      · exact hk rfl

theorem dictInsert_not_mem {α : Type} (m : List (String × α)) (k : String)
    (v : α) (h : k ∉ m.map Prod.fst) : dictInsert m k v = m ++ [(k, v)] := by
  induction m with
  | nil => rfl
  | cons a t ih =>
    simp only [List.map_cons, List.mem_cons, not_or] at h
    have : a.1 ≠ k := fun he => h.1 he.symm
    simp [dictInsert, this, ih h.2]

theorem foldl_dictInsert_eq_append {α : Type}
    (g : String × String → α) :
    ∀ (l : List (String × String)) (acc : List (String × α)),
      (acc.map Prod.fst ++ l.map Prod.fst).Nodup →
      l.foldl (fun res p => dictInsert res p.1 (g p)) acc =
        acc ++ l.map (fun p => (p.1, g p)) := by
  intro l
  induction l with
  | nil => intro acc _; simp
  | cons p t ih =>
    intro acc hnd
    have hk : p.1 ∉ acc.map Prod.fst := by
      intro hmem
      have hdisj := (List.nodup_append.mp hnd).2.2
      exact hdisj hmem (by simp)
    have hstep : dictInsert acc p.1 (g p) = acc ++ [(p.1, g p)] :=
      dictInsert_not_mem acc p.1 (g p) hk
    have hnd' : ((acc ++ [(p.1, g p)]).map Prod.fst ++ t.map Prod.fst).Nodup := by
      simp only [List.map_append, List.map_cons, List.map_nil] at hnd ⊢
      simpa [List.append_assoc] using hnd
    calc (p :: t).foldl (fun res q => dictInsert res q.1 (g q)) acc
        = t.foldl (fun res q => dictInsert res q.1 (g q)) (acc ++ [(p.1, g p)]) := by
          rw [List.foldl_cons, hstep]
      _ = acc ++ [(p.1, g p)] ++ t.map (fun q => (q.1, g q)) := ih _ hnd'
      _ = acc ++ (p :: t).map (fun q => (q.1, g q)) := by simp

theorem foldl_dictInsert_nodup {α β : Type} (key : β → String) (val : β → α) :
    ∀ (l : List β) (acc : List (String × α)),
      (acc.map Prod.fst).Nodup →
      ((l.foldl (fun m b => dictInsert m (key b) (val b)) acc).map Prod.fst).Nodup := by
  intro l
  induction l with
  | nil => intro acc h; simpa
  | cons b t ih => intro acc h; exact ih _ (dictInsert_keys_nodup _ _ _ h)

theorem sectionEntry_keys_nodup (conv : String → Option String)
    (qs : List (String × String)) (pr : String × String)
    (h : (qs.map Prod.fst).Nodup) :
    ((sectionEntry conv qs pr).map Prod.fst).Nodup := by
  unfold sectionEntry
  cases hsub : extractSubsections conv pr.2 subsectionPatterns with
  | none => exact dictInsert_keys_nodup _ _ _ h
  | some subs =>
    exact foldl_dictInsert_nodup
      (fun sp => qLit ++ pr.1 ++ (".") ++ sp.1) (fun sp => sp.2) subs qs h

theorem foldl_sectionEntry_nodup (conv : String → Option String) :
    ∀ (l : List (String × String)) (qs : List (String × String)),
      (qs.map Prod.fst).Nodup →
      ((l.foldl (sectionEntry conv) qs).map Prod.fst).Nodup := by
  intro l
  induction l with
  | nil => intro qs h; simpa
  | cons pr t ih => intro qs h; exact ih _ (sectionEntry_keys_nodup conv qs pr h)

theorem fallbackExtraction_keys_nodup (conv : String → Option String)
    (content : String) :
    ∀ pats, ((fallbackExtraction conv content pats).map Prod.fst).Nodup := by
  intro pats
  induction pats with
  | nil => simp [fallbackExtraction]
  | cons p ps ih =>
    by_cases h : (finditer p content).isEmpty
    · simpa [fallbackExtraction, h] using ih
    · simp only [fallbackExtraction, h, if_false]
      exact foldl_dictInsert_nodup (fun pr : String × String => qLit ++ pr.1)
        (fun pr : String × String => convertSpan conv pr.2) _ [] (by simp)

/-- Identifier uniqueness: every answer map the segmenter produces has
pairwise-distinct keys. -/
theorem extractQuestions_keys_nodup (conv : String → Option String)
    (content : String) :
    ((extractQuestions conv content).map Prod.fst).Nodup := by
  unfold extractQuestions
  by_cases h : (finditer sectionMatchAt (cleanLatexContent content)).isEmpty
  · simp only [h, if_true]
    exact fallbackExtraction_keys_nodup conv _ _
  · simp only [h, if_false]
    exact foldl_sectionEntry_nodup conv _ [] (by simp)

theorem runResults_eq_map (apiKey : String) (oracle : String → Nat → OracleReply)
    (parsed : List (String × String)) (ak : List (String × String))
    (rub : List (String × RubricEntry))
    (h : (parsed.map Prod.fst).Nodup) :
    runResults apiKey oracle parsed ak rub =
      parsed.map (fun p => (p.1, gradeOne apiKey oracle ak rub p)) := by
  unfold runResults
  have := foldl_dictInsert_eq_append
    (fun p => gradeOne apiKey oracle ak rub p) parsed [] (by simpa using h)
  simpa using this

theorem find_map_set (l : List Submission) (sid : Nat) (f : Submission → Submission)
    (hf : ∀ s, (f s).id = s.id) :
    (l.map (fun s => if s.id == sid then f s else s)).find? (fun s => s.id == sid) =
      (l.find? (fun s => s.id == sid)).map f := by
  induction l with
  | nil => rfl
  | cons a t ih =>
    simp only [List.map_cons]
    by_cases h : a.id = sid
    · have hbeq : (a.id == sid) = true := by simpa using h
      have hbf : ((f a).id == sid) = true := by simp [hf a, h]
      rw [if_pos hbeq]
      simp [List.find?, hbeq, hbf]
    · have hbeq : (a.id == sid) = false := by simpa using h
      rw [if_neg (by simp [hbeq])]
      simp only [List.find?, hbeq]
      exact ih

theorem findSub_setSub (db : DB) (sid : Nat) (f : Submission → Submission)
    (hf : ∀ s, (f s).id = s.id) :
    findSubmission (setSubmission db sid f) sid =
      (findSubmission db sid).map f :=
  find_map_set db.submissions sid f hf

/-- Full characterization of the success path of `trigger_grading`: when
the submission exists, its file is readable, its assignment exists and
the API key is set, the run replaces the grade rows, stores the total
and marks the submission graded. -/
theorem triggerGrading_success_parts (env : Env) (db : DB) (sid : Nat)
    (sub : Submission) (content : String) (asg : Assignment)
    (hfind : findSubmission db sid = some sub)
    (hfs : env.fs sub.file_path = some content)
    (hasg : db.assignments.find? (fun a => a.id == sub.assignment_id) = some asg)
    (hkey : env.apiKey ≠ "") :
    triggerGrading env db sid =
      ({ submissions :=
          ((db.submissions.map (fun s => if s.id == sid then setProcessing s else s)).map
            (fun s => if s.id == sid then
              setParsed (extractQuestions env.conv content) s else s)).map
            (fun s => if s.id == sid then
              setGradedTotal (successTotal env content asg) s else s),
         assignments := db.assignments,
         grades := db.grades.filter (fun g => !(g.submission_id == sid)) ++
           successRows env content asg sid },
       RunOutcome.success (successTotal env content asg)
         (successResults env content asg).length) := by
  unfold triggerGrading
  rw [hfind]
  dsimp only
  rw [hfs]
  dsimp only
  dsimp only [setSubmission]
  rw [hasg]
  dsimp only
  simp only [gradeSubmissionQuestions, llmServiceInit]
  rw [if_neg hkey]
  dsimp only
  rfl


theorem setProcessing_id : ∀ s, (setProcessing s).id = s.id := fun _ => rfl
theorem setErrorStatus_id : ∀ s, (setErrorStatus s).id = s.id := fun _ => rfl
theorem setParsed_id (parsed : List (String × String)) :
    ∀ s, (setParsed parsed s).id = s.id := fun _ => rfl
theorem setGradedTotal_id (total : Int) :
    ∀ s, (setGradedTotal total s).id = s.id := fun _ => rfl

theorem statusOf_set2_error (db : DB) (sid : Nat) (sub : Submission)
    (hfind : findSubmission db sid = some sub) :
    statusOf (setSubmission (setSubmission db sid setProcessing) sid
      setErrorStatus) sid = some SubmissionStatus.error := by
  unfold statusOf
  rw [findSub_setSub _ _ setErrorStatus setErrorStatus_id,
    findSub_setSub _ _ setProcessing setProcessing_id, hfind]
  rfl

theorem statusOf_set3_error (db : DB) (sid : Nat) (sub : Submission)
    (parsed : List (String × String))
    (hfind : findSubmission db sid = some sub) :
    statusOf (setSubmission (setSubmission (setSubmission db sid setProcessing)
      sid (setParsed parsed)) sid setErrorStatus) sid =
      some SubmissionStatus.error := by
  unfold statusOf
  rw [findSub_setSub _ _ setErrorStatus setErrorStatus_id,
    findSub_setSub _ _ (setParsed parsed) (setParsed_id parsed),
    findSub_setSub _ _ setProcessing setProcessing_id, hfind]
  rfl

/-- The submission row after a successful run (the store shape of
`triggerGrading_success_parts`). -/
theorem findSub_success_db (env : Env) (db : DB) (sid : Nat)
    (sub : Submission) (content : String) (asg : Assignment)
    (hfind : findSubmission db sid = some sub) :
    findSubmission
      ({ submissions :=
          ((db.submissions.map (fun s => if s.id == sid then setProcessing s else s)).map
            (fun s => if s.id == sid then
              setParsed (extractQuestions env.conv content) s else s)).map
            (fun s => if s.id == sid then
              setGradedTotal (successTotal env content asg) s else s),
         assignments := db.assignments,
         grades := db.grades.filter (fun g => !(g.submission_id == sid)) ++
           successRows env content asg sid } : DB) sid =
      some { sub with
        parsed_json := some (extractQuestions env.conv content),
        status := SubmissionStatus.graded,
        total_score := successTotal env content asg } := by
  have hfind' : db.submissions.find? (fun s => s.id == sid) = some sub := hfind
  simp only [findSubmission]
  rw [find_map_set _ sid (setGradedTotal (successTotal env content asg))
      (setGradedTotal_id _),
    find_map_set _ sid (setParsed (extractQuestions env.conv content))
      (setParsed_id _),
    find_map_set _ sid setProcessing setProcessing_id, hfind']
  rfl

/-- C1: a run on an existing submission always resolves to `GRADED` or
`ERROR` and is never left in `PROCESSING`; every failing run
(segmentation failure, missing assignment, grading failure) surfaces its
diagnostic in the outcome and sets the status to `ERROR`; every
successful run sets `GRADED`. -/
theorem C1_run_never_left_processing :
    ∀ env db sid, (findSubmission db sid).isSome = true →
      (statusOf (triggerGrading env db sid).1 sid = some SubmissionStatus.graded
        ∨ statusOf (triggerGrading env db sid).1 sid = some SubmissionStatus.error)
      ∧ statusOf (triggerGrading env db sid).1 sid ≠ some SubmissionStatus.processing
      ∧ (∀ d, (triggerGrading env db sid).2 = RunOutcome.failure d →
          statusOf (triggerGrading env db sid).1 sid = some SubmissionStatus.error)
      ∧ (∀ t n, (triggerGrading env db sid).2 = RunOutcome.success t n →
          statusOf (triggerGrading env db sid).1 sid = some SubmissionStatus.graded) := by
  intro env db sid hsome
  cases hfind : findSubmission db sid with
  | none => rw [hfind] at hsome; simp at hsome
  | some sub =>
    cases hfs : env.fs sub.file_path with
    | none =>
      have hred : triggerGrading env db sid =
          (setSubmission (setSubmission db sid setProcessing) sid setErrorStatus,
           RunOutcome.failure ("LaTeX parsing failed: Error parsing LaTeX file")) := by
        unfold triggerGrading
        rw [hfind]
        dsimp only
        rw [hfs]
      rw [hred]
      have hst := statusOf_set2_error db sid sub hfind
      refine ⟨Or.inr hst, by rw [hst]; simp, fun d _ => hst, ?_⟩
      intro t n hcontra
      simp at hcontra
    | some content =>
      cases hasg : db.assignments.find? (fun a => a.id == sub.assignment_id) with
      | none =>
        have hred : triggerGrading env db sid =
            (setSubmission (setSubmission (setSubmission db sid setProcessing)
              sid (setParsed (extractQuestions env.conv content))) sid setErrorStatus,
             RunOutcome.failure
               ("Assignment " ++ toString sub.assignment_id ++ " not found")) := by
          unfold triggerGrading
          rw [hfind]
          dsimp only
          rw [hfs]
          dsimp only
          dsimp only [setSubmission]
          rw [hasg]
        rw [hred]
        have hst := statusOf_set3_error db sid sub
          (extractQuestions env.conv content) hfind
        refine ⟨Or.inr hst, by rw [hst]; simp, fun d _ => hst, ?_⟩
        intro t n hcontra
        simp at hcontra
      | some asg =>
        by_cases hkey : env.apiKey = ""
        · have hred : triggerGrading env db sid =
              (setSubmission (setSubmission (setSubmission db sid setProcessing)
                sid (setParsed (extractQuestions env.conv content))) sid setErrorStatus,
               RunOutcome.failure
                 ("AI grading failed: OPENAI_API_KEY must be set in environment variables")) := by
            unfold triggerGrading
            rw [hfind]
            dsimp only
            rw [hfs]
            dsimp only
            dsimp only [setSubmission]
            rw [hasg]
            dsimp only
            simp only [gradeSubmissionQuestions, llmServiceInit]
            rw [if_pos hkey]
            rfl
          rw [hred]
          have hst := statusOf_set3_error db sid sub
            (extractQuestions env.conv content) hfind
          refine ⟨Or.inr hst, by rw [hst]; simp, fun d _ => hst, ?_⟩
          intro t n hcontra
          simp at hcontra
        · have hred := triggerGrading_success_parts env db sid sub content asg
            hfind hfs hasg hkey
          rw [hred]
          have hst : statusOf
              ({ submissions :=
                  ((db.submissions.map
                      (fun s => if s.id == sid then setProcessing s else s)).map
                    (fun s => if s.id == sid then
                      setParsed (extractQuestions env.conv content) s else s)).map
                    (fun s => if s.id == sid then
                      setGradedTotal (successTotal env content asg) s else s),
                 assignments := db.assignments,
                 grades := db.grades.filter (fun g => !(g.submission_id == sid)) ++
                   successRows env content asg sid } : DB) sid =
              some SubmissionStatus.graded := by
            unfold statusOf
            rw [findSub_success_db env db sid sub content asg hfind]
            rfl
          refine ⟨Or.inl hst, by rw [hst]; simp, ?_, fun t n _ => hst⟩
          intro d hcontra
          simp at hcontra

/-- Witness for C1: the sample deployment, once succeeding and once with
an unreadable submission file. -/
theorem C1_witness :
    (findSubmission wDB 1).isSome = true
    ∧ statusOf (triggerGrading wEnv wDB 1).1 1 ≠ some SubmissionStatus.processing
    ∧ statusOf (triggerGrading wEnvBadFs wDB 1).1 1 = some SubmissionStatus.error
    ∧ (triggerGrading wEnvBadFs wDB 1).2 =
        RunOutcome.failure ("LaTeX parsing failed: Error parsing LaTeX file") := by
  have h1 := C1_run_never_left_processing wEnv wDB 1 rfl
  have h2 := C1_run_never_left_processing wEnvBadFs wDB 1 rfl
  exact ⟨rfl, h1.2.1,
    h2.2.2.1 ("LaTeX parsing failed: Error parsing LaTeX file") rfl, rfl⟩

theorem filter_not_filter (l : List GradeRow) (sid : Nat) :
    (l.filter (fun g => !(g.submission_id == sid))).filter
      (fun g => g.submission_id == sid) = [] := by
  induction l with
  | nil => rfl
  | cons a t ih =>
    by_cases h : a.submission_id = sid
    · simp [List.filter, h, ih]
    · have hb : (a.submission_id == sid) = false := by simpa using h
      simp [List.filter, hb, ih]

theorem rows_filter_self (results : List (String × GradingResult)) (sid : Nat) :
    (results.map (toGradeRow sid)).filter (fun g => g.submission_id == sid) =
      results.map (toGradeRow sid) := by
  rw [List.filter_eq_self]
  intro g hg
  obtain ⟨p, _, rfl⟩ := List.mem_map.mp hg
  simp [toGradeRow]

/-- The grade rows of the submission after a successful run are exactly
the fresh set. -/
theorem gradesFor_success (env : Env) (db : DB) (sid : Nat)
    (sub : Submission) (content : String) (asg : Assignment)
    (hfind : findSubmission db sid = some sub)
    (hfs : env.fs sub.file_path = some content)
    (hasg : db.assignments.find? (fun a => a.id == sub.assignment_id) = some asg)
    (hkey : env.apiKey ≠ "") :
    gradesFor (triggerGrading env db sid).1 sid =
      successRows env content asg sid := by
  rw [triggerGrading_success_parts env db sid sub content asg hfind hfs hasg hkey]
  unfold gradesFor
  dsimp only
  rw [List.filter_append, filter_not_filter, List.nil_append]
  unfold successRows
  exact rows_filter_self _ _

/-- C7: on a run whose submission, file and assignment resolve and whose
key is configured, grading never aborts on identifier mismatches: the
run ends `GRADED`, persists exactly one grade row per submitted answer
(in order), and every answer whose identifier fails reconciliation
against the answer-key set or the rubric set gets the synthesized
zero-score identifier-mismatch result. -/
theorem C7_mismatch_never_aborts :
    ∀ env db sid sub content asg,
      findSubmission db sid = some sub →
      env.fs sub.file_path = some content →
      db.assignments.find? (fun a => a.id == sub.assignment_id) = some asg →
      env.apiKey ≠ "" →
      statusOf (triggerGrading env db sid).1 sid = some SubmissionStatus.graded
      ∧ gradesFor (triggerGrading env db sid).1 sid =
          (extractQuestions env.conv content).map (fun p =>
            toGradeRow sid (p.1, gradeOne env.apiKey env.oracle
              asg.answer_key_json asg.rubric_json p))
      ∧ (gradesFor (triggerGrading env db sid).1 sid).map
          (fun g => g.question_no) =
          (extractQuestions env.conv content).map Prod.fst
      ∧ (∀ p, p ∈ extractQuestions env.conv content →
          (optTruthy (findMatchingKey p.1 (asg.answer_key_json.map (fun e => e.1))) &&
            optTruthy (findMatchingKey p.1 (asg.rubric_json.map (fun e => e.1)))) = false →
          gradeOne env.apiKey env.oracle asg.answer_key_json asg.rubric_json p =
            mismatchResult p.1
          ∧ (mismatchResult p.1).score = 0
          ∧ (mismatchResult p.1).feedback =
            "No matching answer key or rubric found for question " ++ p.1 ++
              ". Please review manually.") := by
  intro env db sid sub content asg hfind hfs hasg hkey
  have hres : successResults env content asg =
      (extractQuestions env.conv content).map (fun p =>
        (p.1, gradeOne env.apiKey env.oracle asg.answer_key_json
          asg.rubric_json p)) :=
    runResults_eq_map _ _ _ _ _ (extractQuestions_keys_nodup env.conv content)
  have hgr := gradesFor_success env db sid sub content asg hfind hfs hasg hkey
  have hrows : gradesFor (triggerGrading env db sid).1 sid =
      (extractQuestions env.conv content).map (fun p =>
        toGradeRow sid (p.1, gradeOne env.apiKey env.oracle
          asg.answer_key_json asg.rubric_json p)) := by
    rw [hgr]
    unfold successRows
    rw [hres, List.map_map]
    rfl
  have hst : statusOf (triggerGrading env db sid).1 sid =
      some SubmissionStatus.graded := by
    rw [triggerGrading_success_parts env db sid sub content asg hfind hfs hasg hkey]
    unfold statusOf
    rw [findSub_success_db env db sid sub content asg hfind]
    rfl
  refine ⟨hst, hrows, ?_, ?_⟩
  · rw [hrows, List.map_map]
    rfl
  · intro p _ hcond
    refine ⟨?_, rfl, rfl⟩
    simp [gradeOne, hcond]

/-- Witness for C7: the three-answer sample run, where `q3` fails
reconciliation, still ends `GRADED` with three rows, exactly one of them
a zero-score mismatch row. -/
theorem C7_witness :
    statusOf (triggerGrading wEnv wDB 1).1 1 = some SubmissionStatus.graded
    ∧ (gradesFor (triggerGrading wEnv wDB 1).1 1).length = 3
    ∧ ((gradesFor (triggerGrading wEnv wDB 1).1 1).filter
        (fun g => g.ai_score == 0)).length = 1
    ∧ ((gradesFor (triggerGrading wEnv wDB 1).1 1).map
        (fun g => g.question_no)) = [("q1"), ("q2"), ("q3")] := by
  have h := C7_mismatch_never_aborts wEnv wDB 1 wSubmission wContent wAssignment
    rfl rfl rfl (by decide)
  refine ⟨h.1, ?_, ?_, ?_⟩
  · rw [h.2.1]
    rfl
  · rw [h.2.1]
    rfl
  · rw [h.2.2.1]
    rfl

theorem totalOf_eq_of_find (db : DB) (sid : Nat) (s : Submission)
    (h : findSubmission db sid = some s) : totalOf db sid = some s.total_score := by
  unfold totalOf
  rw [h]
  rfl

theorem updTotal (sub : Submission) (p : List (String × String)) (T : Int) :
    ({ sub with
        parsed_json := some p,
        status := SubmissionStatus.graded,
        total_score := T } : Submission).total_score = T := rfl

theorem successTotal_def (env : Env) (content : String) (asg : Assignment) :
    successTotal env content asg =
      ((successResults env content asg).map (fun p => p.2.score)).sum := rfl

set_option maxHeartbeats 1600000 in
/-- C8: a successful run replaces the persisted grade rows wholesale
(every prior row of the submission deleted, the fresh set appended,
nothing merged), stores `total_score` as the sum of the freshly inserted
rows' scores, and — because the embedded oracle, converter and file
system are pure functions (a deterministic oracle) — running the
pipeline again on the unchanged submission yields identical persisted
rows, an identical `total_score` and an identical outcome. -/
theorem C8_replace_sum_idempotent :
    ∀ env db sid sub content asg,
      findSubmission db sid = some sub →
      env.fs sub.file_path = some content →
      db.assignments.find? (fun a => a.id == sub.assignment_id) = some asg →
      env.apiKey ≠ "" →
      (triggerGrading env db sid).1.grades =
        db.grades.filter (fun g => !(g.submission_id == sid)) ++
          gradesFor (triggerGrading env db sid).1 sid
      ∧ totalOf (triggerGrading env db sid).1 sid =
          some (((gradesFor (triggerGrading env db sid).1 sid).map
            (fun g => g.ai_score)).sum)
      ∧ (triggerGrading env db sid).2 =
          RunOutcome.success (successTotal env content asg)
            (successResults env content asg).length
      ∧ gradesFor (triggerGrading env (triggerGrading env db sid).1 sid).1 sid =
          gradesFor (triggerGrading env db sid).1 sid
      ∧ totalOf (triggerGrading env (triggerGrading env db sid).1 sid).1 sid =
          totalOf (triggerGrading env db sid).1 sid
      ∧ (triggerGrading env (triggerGrading env db sid).1 sid).2 =
          (triggerGrading env db sid).2 := by
  intro env db sid sub content asg hfind hfs hasg hkey
  have hred := triggerGrading_success_parts env db sid sub content asg
    hfind hfs hasg hkey
  have hgr := gradesFor_success env db sid sub content asg hfind hfs hasg hkey
  have hfind2 : findSubmission (triggerGrading env db sid).1 sid =
      some { sub with
        parsed_json := some (extractQuestions env.conv content),
        status := SubmissionStatus.graded,
        total_score := successTotal env content asg } := by
    rw [hred]
    exact findSub_success_db env db sid sub content asg hfind
  have htot : totalOf (triggerGrading env db sid).1 sid =
      some (successTotal env content asg) := by
    have h := totalOf_eq_of_find _ _ _ hfind2
    rw [updTotal] at h
    exact h
  have hsum : (successRows env content asg sid).map (fun g => g.ai_score) =
      (successResults env content asg).map (fun p => p.2.score) := by
    unfold successRows
    rw [List.map_map]
    rfl
  have hgrades : (triggerGrading env db sid).1.grades =
      db.grades.filter (fun g => !(g.submission_id == sid)) ++
        successRows env content asg sid := by
    rw [hred]
  have houtcome : (triggerGrading env db sid).2 =
      RunOutcome.success (successTotal env content asg)
        (successResults env content asg).length := by
    rw [hred]
  -- second-run hypotheses
  have hfs2 : env.fs ({ sub with
      parsed_json := some (extractQuestions env.conv content),
      status := SubmissionStatus.graded,
      total_score := successTotal env content asg } : Submission).file_path =
      some content := hfs
  have hasg2 : (triggerGrading env db sid).1.assignments.find?
      (fun a => a.id == ({ sub with
        parsed_json := some (extractQuestions env.conv content),
        status := SubmissionStatus.graded,
        total_score := successTotal env content asg } : Submission).assignment_id) =
      some asg := by
    rw [hred]
    exact hasg
  have hgr2 := gradesFor_success env (triggerGrading env db sid).1 sid _ content asg
    hfind2 hfs2 hasg2 hkey
  have hred2 := triggerGrading_success_parts env (triggerGrading env db sid).1 sid
    _ content asg hfind2 hfs2 hasg2 hkey
  have hfind3 : findSubmission
      (triggerGrading env (triggerGrading env db sid).1 sid).1 sid =
      some { { sub with
        parsed_json := some (extractQuestions env.conv content),
        status := SubmissionStatus.graded,
        total_score := successTotal env content asg } with
          parsed_json := some (extractQuestions env.conv content),
          status := SubmissionStatus.graded,
          total_score := successTotal env content asg } := by
    rw [hred2]
    exact findSub_success_db env (triggerGrading env db sid).1 sid _ content asg hfind2
  have htot2 : totalOf (triggerGrading env (triggerGrading env db sid).1 sid).1 sid =
      some (successTotal env content asg) := by
    have h := totalOf_eq_of_find _ _ _ hfind3
    rw [updTotal] at h
    exact h
  have houtcome2 : (triggerGrading env (triggerGrading env db sid).1 sid).2 =
      RunOutcome.success (successTotal env content asg)
        (successResults env content asg).length := by
    rw [hred2]
  refine ⟨?_, ?_, ?_, ?_, ?_, ?_⟩
  · rw [hgr, hgrades]
  · rw [htot, hgr, hsum, successTotal_def]
  · exact houtcome
  · rw [hgr2, hgr]
  · rw [htot2, htot]
  · rw [houtcome2, houtcome]

/-- Witness for C8: the sample run, graded twice, with total 10 = 5 + 5 + 0. -/
theorem C8_witness :
    gradesFor (triggerGrading wEnv (triggerGrading wEnv wDB 1).1 1).1 1 =
      gradesFor (triggerGrading wEnv wDB 1).1 1
    ∧ totalOf (triggerGrading wEnv wDB 1).1 1 = some 10
    ∧ (triggerGrading wEnv (triggerGrading wEnv wDB 1).1 1).2 =
        (triggerGrading wEnv wDB 1).2 := by
  have h := C8_replace_sum_idempotent wEnv wDB 1 wSubmission wContent wAssignment
    rfl rfl rfl (by decide)
  refine ⟨h.2.2.2.1, ?_, h.2.2.2.2.2⟩
  rw [h.2.1]
  rfl
